import Mathlib

set_option maxRecDepth 16000
set_option maxHeartbeats 1600000

/-!
A shallow embedding of Blink's CSS selector parser
(`third_party/blink/renderer/core/css/parser/css_selector_parser.cc`)
used to check the natural-language specification of the repository against
the code.

Modelling conventions:

* `CSSParserToken` ranges are modelled as lists in which each
  bracket/parenthesis block is pre-grouped into a single token node holding
  its contents, matching the spec's token model ("tokens are grouped into
  blocks delimited by matching bracket/parenthesis pairs; a block can be
  consumed atomically (skipping its contents) or entered for nested
  parsing").  `ConsumeBlock` therefore enters the node's contents and
  continues after it.
* `WTF::AtomicString` is modelled by `Atom`, with distinguished null,
  universal-selector and string atoms (`g_empty_atom = Atom.str ""`,
  `g_star_atom = Atom.str "*"`).
* The parser's instance fields (`failed_parsing_` and the scoped flags) are
  threaded explicitly as a `PState` value; `base::AutoReset` becomes an
  explicit save of the field on entry and restoration of exactly that field
  on every exit of the corresponding scope.
* `CSSSelectorList` is `Option (List CSSParserSelector)` - `none` models a
  default-constructed (invalid) list, `some l` a list adopted from the
  vector `l` (`IsValid`).
* All recursive-descent functions take a fuel parameter (structural
  recursion); exhausted fuel yields the same degenerate result the
  corresponding loop/function produces when its first sub-parse fails, so
  failure-propagation invariants hold for every fuel.
* Machine `int` arithmetic (`ClampTo<int>` and the An+B saturation) is
  modelled on `Int` with explicit clamping to the 32-bit range.
-/

namespace CSSParser

/-- Nullable string atoms (`WTF::AtomicString`): `nullAtom` models
`g_null_atom`, `universal` models `CSSSelector::UniversalSelectorAtom()`,
and `str s` an ordinary atomized string. -/
inductive Atom where
  | nullAtom
  | universal
  | str (s : String)
  deriving DecidableEq, Repr

def starAtom : Atom := .str "*"

def emptyAtom : Atom := .str ""

def Atom.isNull : Atom → Bool
  | .nullAtom => true
  | _ => false

/-- ASCII lowercase of one character. -/
def charToLowerAscii (c : Char) : Char :=
  if 'A' ≤ c && c ≤ 'Z' then Char.ofNat (c.toNat + 32) else c

/-- ASCII lowercasing, as `WTF::String::LowerASCII` on the strings the
parser compares (implemented over the character list so that terms reduce
definitionally). -/
def asciiLower (s : String) : String := ⟨s.toList.map charToLowerAscii⟩

/-- String equality over character lists. -/
def strEq (a b : String) : Bool := a.toList == b.toList

/-- `String::StartsWith` over character lists. -/
def startsWithStr (pre s : String) : Bool := pre.toList.isPrefixOf s.toList

def Atom.lowerASCII : Atom → Atom
  | .str s => .str (asciiLower s)
  | a => a

/-- Numeric sign record of a number/dimension token (`NumericSign`). -/
inductive NumericSign where
  | noSign
  | plusSign
  | minusSign
  deriving DecidableEq, Repr

/-- Hash token sub-kind (`HashTokenType`). -/
inductive HashTokenType where
  | id
  | unrestricted
  deriving DecidableEq, Repr

/-- CSS parser tokens.  Block-opening tokens (`function`, `leftParen`,
`leftBracket`) carry their block contents; a bare `rightParen` or
`rightBracket` is an unmatched closer at the top level.  Numeric values of
integer-typed tokens are carried exactly as `Int` (the double
`NumericValue()` of an integer token). -/
inductive CSSParserToken where
  | ident (value : String)
  | function (name : String) (block : List CSSParserToken)
  | leftParen (block : List CSSParserToken)
  | leftBracket (block : List CSSParserToken)
  | rightParen
  | rightBracket
  | hash (hashType : HashTokenType) (value : String)
  | delim (c : Char)
  | string (value : String)
  | number (isInteger : Bool) (sign : NumericSign) (value : Int)
  | dimension (isInteger : Bool) (sign : NumericSign) (value : Int) (unit : String)
  | includeMatch
  | dashMatch
  | prefixMatch
  | suffixMatch
  | substringMatch
  | colon
  | comma
  | whitespace
  | eof

abbrev Toks := List CSSParserToken

/-- `range.Peek()`: the next token, or the EOF token at the end. -/
def peekT : Toks → CSSParserToken
  | [] => .eof
  | t :: _ => t

/-- `range.ConsumeWhitespace()`. -/
def consumeWhitespaceL : Toks → Toks
  | .whitespace :: r => consumeWhitespaceL r
  | r => r

/-- `range.ConsumeIncludingWhitespace()`: consume one token (EOF at the
end) and any whitespace after it. -/
def consumeIncludingWhitespaceT : Toks → CSSParserToken × Toks
  | [] => (.eof, [])
  | t :: r => (t, consumeWhitespaceL r)

/-- `AtEndIgnoringWhitespace` (css_selector_parser.cc:43-46). -/
def atEndIgnoringWhitespace (r : Toks) : Bool := (consumeWhitespaceL r).isEmpty

def isCommaT : CSSParserToken → Bool
  | .comma => true
  | _ => false

/-- `ConsumeNestedArgument` (css_selector_parser.cc:30-41): consume tokens
up to the next top-level comma (blocks atomically), returning the consumed
sub-range and the remaining range (which starts with the comma, if any). -/
def consumeNestedArgument : Toks → Toks × Toks
  | [] => ([], [])
  | .comma :: r => ([], .comma :: r)
  | t :: r =>
      let (a, rest) := consumeNestedArgument r
      (t :: a, rest)

/-- `CSSSelector::RelationType`. -/
inductive RelationType where
  | subSelector
  | descendant
  | child
  | directAdjacent
  | indirectAdjacent
  | relativeDescendant
  | relativeChild
  | relativeDirectAdjacent
  | relativeIndirectAdjacent
  | uaShadow
  | shadowSlot
  | shadowPart
  deriving DecidableEq, Repr

/-- `CSSSelector::MatchType` (the `Match()` tag of a simple selector). -/
inductive MatchType where
  | unknown
  | tag
  | id
  | cls
  | pseudoCls
  | pseudoElem
  | attributeSet
  | attributeExact
  | attributeList
  | attributeHyphen
  | attributeBegin
  | attributeEnd
  | attributeContain
  deriving DecidableEq, Repr

/-- `CSSSelector::AttributeMatchType`. -/
inductive AttributeMatchType where
  | caseSensitive
  | caseInsensitive
  | caseSensitiveAlways
  deriving DecidableEq, Repr

/-- The pseudo-type tags used by this parser (subset of
`CSSSelector::PseudoType` reachable from the parsed grammar). -/
inductive PseudoType where
  | unknown
  | before
  | after
  | marker
  | firstLetter
  | firstLine
  | hover
  | focus
  | focusVisible
  | focusWithin
  | active
  | enabled
  | disabled
  | horizontal
  | vertical
  | decrement
  | increment
  | start
  | end'
  | doubleButton
  | singleButton
  | noButton
  | cornerPresent
  | windowInactive
  | selection
  | part
  | state
  | webKitCustomElement
  | blinkInternalElement
  | fileSelectorButton
  | slotted
  | is'
  | where'
  | not'
  | has'
  | host
  | hostContext
  | any
  | cue
  | dir
  | lang
  | highlight
  | nthChild
  | nthLastChild
  | nthOfType
  | nthLastOfType
  | toggle
  | relativeAnchor
  | resizer
  | scrollbar
  | scrollbarCorner
  | scrollbarButton
  | scrollbarThumb
  | scrollbarTrack
  | scrollbarTrackPiece
  | pageTransitionContainer
  | pageTransitionImageWrapper
  | pageTransitionOutgoingImage
  | pageTransitionIncomingImage
  | placeholder
  | backdrop
  deriving DecidableEq, Repr

/-- `CSSParserMode` values relevant here. -/
inductive ParserMode where
  | normalMode
  | uaSheetMode
  | quirksMode
  deriving DecidableEq, Repr

/-- `QualifiedName`: namespace-prefix, local name, namespace URI. -/
structure QualifiedName where
  pfx : Atom
  localName : Atom
  uri : Atom
  deriving DecidableEq, Repr

/-- `AnyQName()`: the fully wildcard qualified name. -/
def anyQName : QualifiedName := ⟨.nullAtom, .universal, starAtom⟩

/-- `ToggleRoot::State` payload of `:toggle()`. -/
inductive ToggleState where
  | identState (s : Atom)
  | numberState (n : Int)
  deriving DecidableEq, Repr

/-- Per-node data of a `CSSParserSelector`/`CSSSelector`. -/
structure SelData where
  matchType : MatchType := .unknown
  pseudoType : PseudoType := .unknown
  relation : RelationType := .subSelector
  value : Atom := .nullAtom
  tagQName : Option QualifiedName := none
  attr : Option QualifiedName := none
  attrMatchFlags : AttributeMatchType := .caseSensitive
  argument : Atom := .nullAtom
  nth : Option (Int × Int) := none
  partNames : Option (List String) := none
  toggleName : Atom := .nullAtom
  toggleValue : Option ToggleState := none
  isImplicit : Bool := false
  containsPseudoInsideHas : Bool := false
  containsComplexInsideHas : Bool := false
  deriving DecidableEq, Repr

/-- `CSSParserSelector`: a node holding one simple selector's data, its
optional nested selector list (`SelectorList()`, where the inner `Option`
models `CSSSelectorList` validity) and the singly linked tag history. -/
inductive CSSParserSelector where
  | mk (data : SelData) (selList : Option (Option (List CSSParserSelector)))
      (tagHistory : Option CSSParserSelector)

abbrev Sel := CSSParserSelector

/-- A `CSSSelectorList`: `none` is the default-constructed invalid list,
`some l` a valid list adopted from the vector `l`. -/
abbrev SelVecList := Option (List Sel)

def CSSParserSelector.data : Sel → SelData
  | .mk d _ _ => d

def CSSParserSelector.selList : Sel → Option SelVecList
  | .mk _ l _ => l

def CSSParserSelector.tagHistory : Sel → Option Sel
  | .mk _ _ t => t

/-- Chain length of the tag-history linked list. -/
def CSSParserSelector.chainLength : Sel → Nat
  | .mk _ _ none => 1
  | .mk _ _ (some t) => 1 + t.chainLength

/-- `CSSParserSelector::AppendTagHistory(relation, selector)`: walk to the
end of this chain, set the end node's relation and link `tail` after it. -/
def appendTagHistory : Sel → RelationType → Sel → Sel
  | .mk d l none, rel, tail => .mk {d with relation := rel} l (some tail)
  | .mk d l (some t), rel, tail => .mk d l (some (appendTagHistory t rel tail))

/-- The stylesheet collaborator: default namespace (initialized to
`g_star_atom`) and the prefix → URI registrations.
Modelled from the spec: `StyleSheetContents` is not part of this excerpt;
the spec describes it as "a namespace-prefix→URI lookup and a
default-namespace accessor (supplied by a stylesheet-context object)". -/
structure StyleSheetContents where
  defaultNS : Atom := starAtom
  namespaces : List (String × String) := []
  deriving DecidableEq, Repr

/-- `StyleSheetContents::NamespaceURIFromPrefix`: registered prefix → its
URI, otherwise the null atom.
Modelled from the spec: "otherwise a table lookup, failing (null URI) if
the prefix is unregistered". -/
def lookupNs (s : String) : List (String × String) → Option String
  | [] => none
  | (k, v) :: r => if strEq k s then some v else lookupNs s r

def namespaceURIFromPfx (sh : StyleSheetContents) (s : String) : Atom :=
  match lookupNs s sh.namespaces with
  | some uri => .str uri
  | none => .nullAtom

/-- The `CSSParserContext`/feature-flag environment of one parse. -/
structure PContext where
  mode : ParserMode := .normalMode
  isHTMLDocument : Bool := false
  styleSheet : Option StyleSheetContents := none
  cssPseudoHasEnabled : Bool := true
  cssMarkerNestedEnabled : Bool := true
  webkitScrollbarStylingEnabled : Bool := true
  cssCaseSensitiveEnabled : Bool := true
  deriving DecidableEq, Repr

/-- The mutable parser fields of `CSSSelectorParser`, threaded explicitly:
the sticky `failed_parsing_` flag and the scoped save/restore flags. -/
structure PState where
  failedParsing : Bool := false
  disallowPseudoElements : Bool := false
  insideCompoundPseudo : Bool := false
  restrictingPseudoElement : PseudoType := .unknown
  resistDefaultNamespace : Bool := false
  ignoreDefaultNamespace : Bool := false
  isInsideHasArgument : Bool := false
  foundPseudoInHasArgument : Bool := false
  isInsideLogicalCombinationInHasArgument : Bool := false
  foundComplexLogicalCombinationsInHasArgument : Bool := false
  deriving DecidableEq, Repr

/-- The state of a freshly constructed `CSSSelectorParser`. -/
def initState : PState := {}

/-- Identity on `x` that is strict in a `Bool`: evaluating it forces `b` to
a constructor first.  Used only to keep call-by-name (kernel) evaluation of
concrete parses linear; semantically inert. -/
def bseq (b : Bool) (x : α) : α :=
  match b with
  | true => x
  | false => x

theorem bseq_eq (b : Bool) (x : α) : bseq b x = x := by
  cases b <;> rfl

/-- Identity on a parser state that is strict in every field (see
`forcePState_eq`); inserted at each state-construction site so that the
threaded state is always evaluated before being consumed.  Semantically
inert. -/
def forcePState (st : PState) : PState :=
  match st with
  | ⟨a, b, c, p, e, f, g, h, i, j⟩ =>
      bseq a (bseq b (bseq c (bseq (p == PseudoType.unknown) (bseq e
        (bseq f (bseq g (bseq h (bseq i
          (bseq j ⟨a, b, c, p, e, f, g, h, i, j⟩)))))))))

theorem forcePState_eq (st : PState) : forcePState st = st := by
  cases st
  simp [forcePState, bseq_eq]

/-- Identity on `x` that is strict in a `Nat`: evaluating it forces `n`
(and hence whatever computation produces `n`) first.  Semantically
inert. -/
def nseq (n : Nat) (x : α) : α :=
  match n with
  | 0 => x
  | _ + 1 => x

theorem nseq_eq (n : Nat) (x : α) : nseq n x = x := by
  cases n <;> rfl

/-- A total weight of an atom; evaluating it forces the atom (and a
contained string's spine). -/
def atomWeight : Atom → Nat
  | .nullAtom => 0
  | .universal => 1
  | .str s => 2 + s.toList.length

def qnWeight (q : QualifiedName) : Nat :=
  atomWeight q.pfx + atomWeight q.localName + atomWeight q.uri

def optWeight (f : α → Nat) : Option α → Nat
  | none => 0
  | some x => 1 + f x

def toggleWeight : ToggleState → Nat
  | .identState a => atomWeight a
  | .numberState n => n.natAbs

/-- A total weight of one simple selector's data; evaluating it forces
every field. -/
def dataWeight (d : SelData) : Nat :=
  (if d.matchType == MatchType.unknown then 1 else 0) +
  (if d.pseudoType == PseudoType.unknown then 1 else 0) +
  (if d.relation == RelationType.subSelector then 1 else 0) +
  atomWeight d.value + optWeight qnWeight d.tagQName +
  optWeight qnWeight d.attr +
  (if d.attrMatchFlags == AttributeMatchType.caseSensitive then 1 else 0) +
  atomWeight d.argument +
  optWeight (fun (p : Int × Int) => p.1.natAbs + p.2.natAbs) d.nth +
  optWeight (fun l => l.foldl (fun a t => a + t.toList.length) 0)
    d.partNames +
  atomWeight d.toggleName + optWeight toggleWeight d.toggleValue +
  (if d.isImplicit then 1 else 0) +
  (if d.containsPseudoInsideHas then 1 else 0) +
  (if d.containsComplexInsideHas then 1 else 0)

mutual

/-- A fuel-bounded total weight of a selector tree; evaluating it forces
the tree (data, nested selector lists and tag history) to that depth. -/
def selWeightF : Nat → Sel → Nat
  | 0, _ => 0
  | fuel + 1, .mk d l t =>
      dataWeight d +
      (match l with
       | none => 0
       | some none => 1
       | some (some xs) => 2 + selListWeightF fuel xs) +
      (match t with
       | none => 0
       | some s => 1 + selWeightF fuel s)

def selListWeightF : Nat → List Sel → Nat
  | 0, _ => 0
  | _ + 1, [] => 0
  | fuel + 1, s :: r => selWeightF fuel s + selListWeightF fuel r

end

/-- Identity on a selector that is strict in the whole tree (up to depth
48, far beyond any input used here); semantically inert (see
`forceSel_eq`). -/
def forceSel (s : Sel) : Sel := nseq (selWeightF 48 s) s

theorem forceSel_eq (s : Sel) : forceSel s = s := nseq_eq _ _

mutual

/-- A fuel-bounded total weight of a token; evaluating it forces the token
including block contents. -/
def tokWeightF : Nat → CSSParserToken → Nat
  | 0, _ => 0
  | fuel + 1, t =>
      match t with
      | .ident v => 1 + v.toList.length
      | .function n b => 2 + n.toList.length + toksWeightF fuel b
      | .leftParen b => 3 + toksWeightF fuel b
      | .leftBracket b => 4 + toksWeightF fuel b
      | .hash _ v => 5 + v.toList.length
      | .delim c => 6 + c.toNat
      | .string v => 7 + v.toList.length
      | .number _ _ v => 8 + v.natAbs
      | .dimension _ _ v u => 9 + v.natAbs + u.toList.length
      | _ => 10

def toksWeightF : Nat → Toks → Nat
  | 0, _ => 0
  | _ + 1, [] => 0
  | fuel + 1, t :: r => tokWeightF fuel t + toksWeightF fuel r

end

/-- Identity on a token range that is strict in the whole range;
semantically inert (see `forceToks_eq`). -/
def forceToks (l : Toks) : Toks := nseq (toksWeightF 48 l) l

theorem forceToks_eq (l : Toks) : forceToks l = l := nseq_eq _ _


/-! ### Pseudo-type name resolution

`CSSSelector::NameToPseudoType` and the `CSSSelector`/`CSSParserSelector`
helper predicates live in `css_selector.cc` / `css_parser_selector.cc`,
which are not part of this excerpt; they are modelled from the spec below
(name-keyed tables with a has-arguments arity key, and the shadow/tree
classification of pseudo-elements). -/

/-- Modelled from the spec: the pseudo-type name table for identifier
pseudos (no arguments), "a pseudo-type name→tag mapping table keyed by name
string + arity (has-arguments boolean)". -/
def pseudoTypeMapNoArgs : List (String × PseudoType) :=
  [("active", .active), ("after", .after), ("backdrop", .backdrop),
   ("before", .before), ("corner-present", .cornerPresent), ("cue", .cue),
   ("decrement", .decrement), ("disabled", .disabled),
   ("double-button", .doubleButton), ("enabled", .enabled), ("end", .end'),
   ("file-selector-button", .fileSelectorButton),
   ("first-letter", .firstLetter), ("first-line", .firstLine),
   ("focus", .focus), ("focus-visible", .focusVisible),
   ("focus-within", .focusWithin), ("horizontal", .horizontal),
   ("host", .host), ("hover", .hover), ("increment", .increment),
   ("marker", .marker), ("no-button", .noButton),
   ("placeholder", .placeholder), ("selection", .selection),
   ("single-button", .singleButton), ("start", .start),
   ("vertical", .vertical), ("window-inactive", .windowInactive),
   ("-internal-relative-anchor", .relativeAnchor),
   ("-webkit-resizer", .resizer), ("-webkit-scrollbar", .scrollbar),
   ("-webkit-scrollbar-button", .scrollbarButton),
   ("-webkit-scrollbar-corner", .scrollbarCorner),
   ("-webkit-scrollbar-thumb", .scrollbarThumb),
   ("-webkit-scrollbar-track", .scrollbarTrack),
   ("-webkit-scrollbar-track-piece", .scrollbarTrackPiece)]

/-- Modelled from the spec: the pseudo-type name table for functional
pseudos (with arguments). -/
def pseudoTypeMapWithArgs : List (String × PseudoType) :=
  [("-webkit-any", .any), ("cue", .cue), ("dir", .dir), ("has", .has'),
   ("highlight", .highlight), ("host", .host),
   ("host-context", .hostContext), ("is", .is'), ("lang", .lang),
   ("not", .not'), ("nth-child", .nthChild),
   ("nth-last-child", .nthLastChild), ("nth-last-of-type", .nthLastOfType),
   ("nth-of-type", .nthOfType),
   ("page-transition-container", .pageTransitionContainer),
   ("page-transition-image-wrapper", .pageTransitionImageWrapper),
   ("page-transition-incoming-image", .pageTransitionIncomingImage),
   ("page-transition-outgoing-image", .pageTransitionOutgoingImage),
   ("part", .part), ("slotted", .slotted), ("toggle", .toggle),
   ("where", .where')]

/-- Modelled from the spec: `CSSSelector::NameToPseudoType(name,
has_arguments, document)` (the document keying of experimental types is
out of scope). -/
def lookupPT (name : String) : List (String × PseudoType) →
    Option PseudoType
  | [] => none
  | (k, v) :: r => if strEq k name then some v else lookupPT name r

def nameToPseudoType (name : String) (hasArgs : Bool) : PseudoType :=
  let tbl := if hasArgs then pseudoTypeMapWithArgs else pseudoTypeMapNoArgs
  match lookupPT name tbl with
  | some pt => pt
  | none => .unknown

/-- `CSSSelectorParser::ParsePseudoType`
(css_selector_parser.cc:406-439): table lookup, scrollbar-styling feature
filtering, then the `-webkit-` / `-internal-` / `--` fallbacks. -/
def parsePseudoType (name : String) (hasArgs : Bool) (cx : PContext) :
    PseudoType :=
  let pt := nameToPseudoType name hasArgs
  let pt :=
    if !cx.webkitScrollbarStylingEnabled &&
        (pt = .resizer || pt = .scrollbar || pt = .scrollbarCorner ||
         pt = .scrollbarButton || pt = .scrollbarThumb ||
         pt = .scrollbarTrack || pt = .scrollbarTrackPiece) then
      PseudoType.unknown
    else pt
  if pt ≠ .unknown then pt
  else if startsWithStr "-webkit-" name then .webKitCustomElement
  else if startsWithStr "-internal-" name then .blinkInternalElement
  else if startsWithStr "--" name then .state
  else .unknown

/-- Modelled from the spec: the pseudo-types that are pseudo-ELEMENT kinds
(the spec's PseudoElement variant list plus the scrollbar pieces), used by
`CSSSelector::UpdatePseudoType` to reject a kind/colon-count mismatch. -/
def isElementPseudoType : PseudoType → Bool
  | .before | .after | .marker | .firstLetter | .firstLine | .selection
  | .part | .webKitCustomElement | .blinkInternalElement
  | .fileSelectorButton | .slotted | .cue | .highlight | .placeholder
  | .backdrop | .resizer | .scrollbar | .scrollbarCorner | .scrollbarButton
  | .scrollbarThumb | .scrollbarTrack | .scrollbarTrackPiece
  | .pageTransitionContainer | .pageTransitionImageWrapper
  | .pageTransitionOutgoingImage | .pageTransitionIncomingImage => true
  | _ => false

/-- Modelled from the spec: `CSSParserSelector::UpdatePseudoType` /
`CSSSelector::UpdatePseudoType` (css_parser_selector.cc, not in this
excerpt): lowercase the name, resolve the pseudo-type ("one colon =
pseudo-class, two colons = pseudo-element; the identifier or function name
is mapped through a name table"), let the four legacy pseudo-elements
upgrade a single colon, and degrade a kind mismatch to `unknown`. -/
def updatePseudoType (m : MatchType) (value : String) (hasArgs : Bool)
    (cx : PContext) : MatchType × PseudoType × String :=
  let lower := asciiLower value
  let pt := parsePseudoType lower hasArgs cx
  if pt = .before || pt = .after || pt = .firstLetter || pt = .firstLine then
    (.pseudoElem, pt, lower)
  else if pt = .unknown then (m, pt, lower)
  else if isElementPseudoType pt then
    (m, if m = .pseudoElem then pt else .unknown, lower)
  else (m, if m = .pseudoCls then pt else .unknown, lower)

/-- Modelled from the spec: `CSSSelector::IsTreeAbidingPseudoElement`
("after `::slotted()`, only tree-abiding pseudo-elements are legal as a
further pseudo-element"). -/
def isTreeAbidingPseudoElement (s : Sel) : Bool :=
  s.data.matchType = .pseudoElem &&
    (s.data.pseudoType = .before || s.data.pseudoType = .after ||
     s.data.pseudoType = .marker || s.data.pseudoType = .placeholder ||
     s.data.pseudoType = .fileSelectorButton ||
     s.data.pseudoType = .backdrop)

/-- Modelled from the spec: `CSSSelector::IsAllowedAfterPart` (the
tree-abiding pseudo-elements may follow `::part()`). -/
def isAllowedAfterPart (s : Sel) : Bool := isTreeAbidingPseudoElement s

/-- Modelled from the spec:
`CSSSelector::NeedsImplicitShadowCombinatorForMatching` - the
shadow-piercing pseudo-elements ("custom pseudo-elements, `::slotted`,
`::part`, `::cue`, shadow pseudos") that force tag synthesis and compound
splitting. -/
def SelData.needsImplicitShadowComb (d : SelData) : Bool :=
  d.pseudoType = .webKitCustomElement ||
  d.pseudoType = .blinkInternalElement || d.pseudoType = .cue ||
  d.pseudoType = .placeholder || d.pseudoType = .fileSelectorButton ||
  d.pseudoType = .slotted || d.pseudoType = .part

/-- `CSSParserSelector::NeedsImplicitShadowCombinatorForMatching` (on the
head node of a chain). -/
def needsImplicitShadowComb (s : Sel) : Bool := s.data.needsImplicitShadowComb

/-- Modelled from the spec:
`CSSSelector::GetImplicitShadowCombinatorForMatching`: `::part` →
ShadowPart, `::slotted` → ShadowSlot, the rest → UAShadow. -/
def implicitShadowCombinator (s : Sel) : RelationType :=
  if s.data.pseudoType = .part then .shadowPart
  else if s.data.pseudoType = .slotted then .shadowSlot
  else .uaShadow

/-- `CSSParserSelector::IsHostPseudoSelector` (on the head node). -/
def isHostPseudoSelector (s : Sel) : Bool :=
  s.data.pseudoType = .host || s.data.pseudoType = .hostContext

/-- Modelled from the spec: `css_parsing_utils::IsCustomIdent` for
`:toggle()` names (a custom-ident is an identifier that is not a CSS-wide
keyword and not `default`). -/
def isCustomIdentName (s : String) : Bool :=
  let l := asciiLower s
  !(strEq l "inherit" || strEq l "initial" || strEq l "unset" ||
    strEq l "revert" || strEq l "revert-layer" || strEq l "default")

/-! ### The fixed after-pseudo-element legality tables
(css_selector_parser.cc:503-618). -/

/-- `IsScrollbarPseudoClass` (css_selector_parser.cc:505-526). -/
def isScrollbarPseudoCls : PseudoType → Bool
  | .enabled | .disabled | .hover | .active | .horizontal | .vertical
  | .decrement | .increment | .start | .end' | .doubleButton
  | .singleButton | .noButton | .cornerPresent | .windowInactive => true
  | _ => false

/-- `IsUserActionPseudoClass` (css_selector_parser.cc:528-539). -/
def isUserActionPseudoCls : PseudoType → Bool
  | .hover | .focus | .focusVisible | .focusWithin | .active => true
  | _ => false

/-- `IsPseudoClassValidAfterPseudoElement`
(css_selector_parser.cc:541-565). -/
def isPseudoClsValidAfterPseudoElement (pc : PseudoType)
    (compoundPseudoElement : PseudoType) : Bool :=
  match compoundPseudoElement with
  | .resizer | .scrollbar | .scrollbarCorner | .scrollbarButton
  | .scrollbarThumb | .scrollbarTrack | .scrollbarTrackPiece =>
      isScrollbarPseudoCls pc
  | .selection => pc = .windowInactive
  | .part => isUserActionPseudoCls pc || pc = .state
  | .webKitCustomElement | .blinkInternalElement | .fileSelectorButton =>
      isUserActionPseudoCls pc
  | _ => false

/-- The fallthrough tail of `IsSimpleSelectorValidAfterPseudoElement`
(css_selector_parser.cc:588-604): only pseudo-classes survive; the logical
combination pseudo-classes are always valid (their contents are validated
by the nested parse under `restricting_pseudo_element_`); everything else
consults the fixed adjacency table. -/
def validAfterPseudoElementTail (s : Sel)
    (compoundPseudoElement : PseudoType) : Bool :=
  if s.data.matchType ≠ .pseudoCls then false
  else
    match s.data.pseudoType with
    | .is' | .where' | .not' | .has' => true
    | pc => isPseudoClsValidAfterPseudoElement pc compoundPseudoElement

/-- `IsSimpleSelectorValidAfterPseudoElement`
(css_selector_parser.cc:567-605). -/
def isSimpleSelectorValidAfterPseudoElement (cx : PContext) (s : Sel)
    (compoundPseudoElement : PseudoType) : Bool :=
  match compoundPseudoElement with
  | .unknown => true
  | .after | .before =>
      if s.data.pseudoType = .marker && cx.cssMarkerNestedEnabled then true
      else validAfterPseudoElementTail s compoundPseudoElement
  | .slotted => isTreeAbidingPseudoElement s
  | .part =>
      if isAllowedAfterPart s then true
      else validAfterPseudoElementTail s compoundPseudoElement
  | _ => validAfterPseudoElementTail s compoundPseudoElement

/-- `IsPseudoClassValidWithinHasArgument`
(css_selector_parser.cc:607-616): only nested `:has()` is rejected. -/
def isPseudoClsValidWithinHasArgument (pt : PseudoType) : Bool :=
  match pt with
  | .has' => false
  | _ => true

/-! ### Compound flags (css_selector_parser.cc:293-314). -/

/-- `ExtractCompoundFlags`: a pseudo-element marks the compound as
needing rightmost position, except custom `::-webkit-*` pseudo-elements in
UA sheets. -/
def extractCompoundFlags (mode : ParserMode) (d : SelData) : Bool :=
  if d.matchType ≠ .pseudoElem then false
  else if mode = .uaSheetMode && d.pseudoType = .webKitCustomElement then
    false
  else true

/-- The compound-flags accumulation loops of `ConsumeComplexSelector` /
`ConsumePartialComplexSelector`: OR of `ExtractCompoundFlags` over the
whole tag-history chain. -/
def chainHasPseudoElemFlag (mode : ParserMode) : Sel → Bool
  | .mk d _ none => extractCompoundFlags mode d
  | .mk d _ (some t) =>
      extractCompoundFlags mode d || chainHasPseudoElemFlag mode t

/-! ### Namespace resolution (css_selector_parser.cc:1287-1306). -/

/-- `CSSSelectorParser::DefaultNamespace`: star without a stylesheet or
while ignoring the default namespace, else the stylesheet default. -/
def defaultNamespace (cx : PContext) (st : PState) : Atom :=
  match cx.styleSheet with
  | none => starAtom
  | some sh =>
      if st.ignoreDefaultNamespace then starAtom else sh.defaultNS

/-- `CSSSelectorParser::DetermineNamespace`: null → default, empty → the
no-namespace URI, `*` → wildcard, otherwise stylesheet lookup (null URI if
unregistered or no stylesheet). -/
def determineNamespace (cx : PContext) (st : PState) (pfx : Atom) : Atom :=
  match pfx with
  | .nullAtom => defaultNamespace cx st
  | .universal => .nullAtom
  | .str s =>
      if strEq s "" then emptyAtom
      else if strEq s "*" then starAtom
      else
        match cx.styleSheet with
        | none => .nullAtom
        | some sh => namespaceURIFromPfx sh s

/-! ### Name consumption (css_selector_parser.cc:714-757). -/

/-- The tail of `ConsumeName` after the first token fixed `name`: handle a
following `|` namespace separator. -/
def consumeNameTail (name : Atom) (r : Toks) : Bool × Atom × Atom × Toks :=
  match r with
  | .delim '|' :: r2 =>
      let nsPfx := if name = .universal then starAtom else name
      match r2 with
      | .ident v :: r3 => (true, .str v, nsPfx, r3)
      | .delim '*' :: r3 => (true, .universal, nsPfx, r3)
      | _ => (false, .nullAtom, .nullAtom, .delim '|' :: r2)
  | _ => (true, name, .nullAtom, r)

/-- `CSSSelectorParser::ConsumeName`: returns (found, name,
namespace-prefix, remaining range). -/
def consumeName (range : Toks) : Bool × Atom × Atom × Toks :=
  match range with
  | .ident v :: r1 => consumeNameTail (.str v) r1
  | .delim '*' :: r1 => consumeNameTail .universal r1
  | .delim '|' :: r1 => consumeNameTail (.str "") (.delim '|' :: r1)
  | _ => (false, .nullAtom, .nullAtom, range)

/-! ### Combinators and attribute operators
(css_selector_parser.cc:1132-1198). -/

/-- `CSSSelectorParser::ConsumeCombinator`: leading whitespace switches the
fallback from sub-selector to descendant; `+`/`~`/`>` are consumed with
trailing whitespace. -/
def consumeCombinatorFrom (fallback : RelationType) : Toks →
    RelationType × Toks
  | .whitespace :: r => consumeCombinatorFrom .descendant r
  | .delim '+' :: r2 => (.directAdjacent, consumeWhitespaceL r2)
  | .delim '~' :: r2 => (.indirectAdjacent, consumeWhitespaceL r2)
  | .delim '>' :: r2 => (.child, consumeWhitespaceL r2)
  | r => (fallback, r)

def consumeCombinator (r : Toks) : RelationType × Toks :=
  consumeCombinatorFrom .subSelector r

/-- `CSSSelectorParser::ConsumeAttributeMatch`: the token → operator
table; anything else sets the sticky failure flag. -/
def consumeAttributeMatchT (st : PState) (block : Toks) :
    MatchType × PState × Toks :=
  let (tok, r) := consumeIncludingWhitespaceT block
  match tok with
  | .includeMatch => (.attributeList, st, r)
  | .dashMatch => (.attributeHyphen, st, r)
  | .prefixMatch => (.attributeBegin, st, r)
  | .suffixMatch => (.attributeEnd, st, r)
  | .substringMatch => (.attributeContain, st, r)
  | .delim '=' => (.attributeExact, st, r)
  | _ =>
      (.attributeExact, forcePState {st with failedParsing := true}, r)

/-- `CSSSelectorParser::ConsumeAttributeFlags`: optional trailing `i`/`s`
flag; an unknown flag sets the sticky failure flag. -/
def consumeAttributeFlagsT (cx : PContext) (st : PState) (block : Toks) :
    AttributeMatchType × PState × Toks :=
  match block with
  | .ident flagv :: _ =>
      let (_, r) := consumeIncludingWhitespaceT block
      if strEq (asciiLower flagv) "i" then (.caseInsensitive, st, r)
      else if strEq (asciiLower flagv) "s" && cx.cssCaseSensitiveEnabled
      then
        (.caseSensitiveAlways, st, r)
      else
        (.caseSensitive, forcePState {st with failedParsing := true}, r)
  | _ => (.caseSensitive, st, block)

/-! ### An+B parsing (css_selector_parser.cc:1200-1285). -/

def intMinI : Int := -2147483648

def intMaxI : Int := 2147483647

/-- `ClampTo<int>` applied to an integer token's numeric value. -/
def clampToInt (v : Int) : Int := max intMinI (min v intMaxI)

def charAt (s : String) (i : Nat) : Char := s.toList.getD i ' '

def sDrop1 (s : String) : String := ⟨s.toList.drop 1⟩

/-- `WTF::String::ToIntStrict`: an optional sign and digits, valid only if
the whole string parses and the value fits a 32-bit int. -/
def toIntStrict (s : String) : Option Int :=
  let cs := s.toList
  let (sign, ds) : Int × List Char :=
    match cs with
    | '+' :: r => (1, r)
    | '-' :: r => (-1, r)
    | r => (1, r)
  if ds.isEmpty || !ds.all Char.isDigit then none
  else
    let n : Int :=
      sign * (ds.foldl (fun a c => a * 10 + (c.toNat - '0'.toNat)) 0 : Nat)
    if n < intMinI || n > intMaxI then none else some n

/-- The trailing-B part of `ConsumeANPlusB`
(css_selector_parser.cc:1270-1284): consume the B number token, require an
explicit sign exactly when no sign was given before it, clamp, and negate
with saturation at the minimum integer. -/
def anpbFinish (a : Int) (sign : NumericSign) (r : Toks) :
    Option (Int × Int) × Toks :=
  match r with
  | .number true bsign bv :: rr =>
      if ((bsign = NumericSign.noSign) = (sign = NumericSign.noSign)) then
        (none, rr)
      else
        let b0 := clampToInt bv
        if sign = .minusSign then
          if b0 = intMinI then (some (a, intMaxI), rr)
          else (some (a, -b0), rr)
        else (some (a, b0), rr)
  | _ :: rr => (none, rr)
  | [] => (none, [])

/-- `CSSSelectorParser::ConsumeANPlusB`
(css_selector_parser.cc:1200-1285). -/
def consumeANPlusB (range : Toks) : Option (Int × Int) × Toks :=
  match range with
  | [] => (none, [])
  | tok :: r0 =>
    match tok with
    | .number true _ v => (some (0, clampToInt v), r0)
    | _ =>
      let isOddTok := match tok with
        | .ident s => strEq (asciiLower s) "odd"
        | _ => false
      let isEvenTok := match tok with
        | .ident s => strEq (asciiLower s) "even"
        | _ => false
      if isOddTok then (some (2, 1), r0)
      else if isEvenTok then (some (2, 0), r0)
      else
        let res : Option (Int × String × Toks) :=
          match tok, r0 with
          | .delim '+', .ident s :: r1 => some (1, s, r1)
          | .dimension true _ v _u, _ =>
              some (clampToInt v,
                (match tok with | .dimension _ _ _ u => u | _ => ""), r0)
          | .ident s, _ =>
              if charAt s 0 = '-' then some (-1, sDrop1 s, r0)
              else some (1, s, r0)
          | _, _ => none
        match res with
        | none => (none, consumeWhitespaceL r0)
        | some (a, nStr, r1) =>
          let r2 := consumeWhitespaceL r1
          let nLen := nStr.toList.length
          if nStr.toList.isEmpty then (none, r2)
          else if !(charAt nStr 0 = 'n' || charAt nStr 0 = 'N') then
            (none, r2)
          else if nLen > 1 && charAt nStr 1 ≠ '-' then (none, r2)
          else if nLen > 2 then
            match toIntStrict (sDrop1 nStr) with
            | some b => (some (a, b), r2)
            | none => (none, r2)
          else if nLen = 1 then
            match r2 with
            | .delim c :: rr =>
                let rr2 := consumeWhitespaceL rr
                if c = '+' then anpbFinish a .plusSign rr2
                else if c = '-' then anpbFinish a .minusSign rr2
                else (none, rr2)
            | .number _ _ _ :: _ => anpbFinish a .noSign r2
            | _ => (some (a, 0), r2)
          else anpbFinish a .minusSign r2

/-! ### Tag-selector synthesis and shadow-compound splitting
(css_selector_parser.cc:1308-1407). -/

/-- `CSSSelectorParser::PrependTypeSelectorIfNeeded`. -/
def prependTypeSelectorIfNeeded (cx : PContext) (st : PState) (nsPfx : Atom)
    (hasQ : Bool) (elementName : Atom) (compound : Sel) : PState × Sel :=
  if !hasQ && defaultNamespace cx st = starAtom &&
      !needsImplicitShadowComb compound then
    (st, compound)
  else
    let determinedElementName :=
      if !hasQ then Atom.universal else elementName
    let nsURI := determineNamespace cx st nsPfx
    if nsURI.isNull then
      (forcePState {st with failedParsing := true}, compound)
    else
      let dPfx := if nsURI = defaultNamespace cx st then Atom.nullAtom
                  else nsPfx
      let tag : QualifiedName := ⟨dPfx, determinedElementName, nsURI⟩
      let isHost := isHostPseudoSelector compound
      if isHost && !hasQ && nsPfx.isNull then (st, compound)
      else if tag ≠ anyQName || isHost || needsImplicitShadowComb compound
      then
        (st, .mk {matchType := .tag, tagQName := some tag,
                  isImplicit := dPfx = Atom.nullAtom &&
                    determinedElementName = Atom.universal && !isHost}
          none (some compound))
      else (st, compound)

/-- The walk of `SplitCompoundAtImplicitShadowCrossingCombinator`: detach
the chain at the first link whose successor needs an implicit shadow
combinator, returning the front part (link severed) and the remainder. -/
def detachAtImplicit : Sel → Option (Sel × Sel)
  | .mk _ _ none => none
  | .mk d l (some th) =>
      if needsImplicitShadowComb th then some (.mk d l none, th)
      else
        match detachAtImplicit th with
        | none => none
        | some (front, rem) => some (.mk d l (some front), rem)

/-- `SplitCompoundAtImplicitShadowCrossingCombinator`
(css_selector_parser.cc:1360-1407), with fuel bounded by the chain length
(each recursive step detaches at least one node). -/
def splitCompoundF : Nat → Sel → Sel
  | 0, sel => sel
  | fuel + 1, sel =>
      match detachAtImplicit sel with
      | none => sel
      | some (front, rem) =>
          appendTagHistory (splitCompoundF fuel rem)
            (implicitShadowCombinator rem) front

def splitCompound (sel : Sel) : Sel := splitCompoundF sel.chainLength sel

/-! ### Leaf simple selectors (css_selector_parser.cc:759-839). -/

/-- `CSSSelectorParser::ConsumeId`. -/
def consumeId (range : Toks) : Option Sel × Toks :=
  match range with
  | .hash ht v :: r =>
      if ht = .id then
        (some (.mk {matchType := .id, value := .str v} none none), r)
      else (none, range)
  | _ => (none, range)

/-- `CSSSelectorParser::ConsumeClass`. -/
def consumeCls (range : Toks) : Option Sel × Toks :=
  match range with
  | .delim '.' :: r =>
      match r with
      | .ident v :: r2 =>
          (some (.mk {matchType := .cls, value := .str v} none none), r2)
      | _ => (none, r)
  | _ => (none, range)

/-- `CSSSelectorParser::ConsumeAttribute`
(css_selector_parser.cc:789-839). -/
def consumeAttr (cx : PContext) (st : PState) (range : Toks) :
    Option Sel × PState × Toks :=
  match range with
  | .leftBracket blk :: rest =>
      let block := consumeWhitespaceL blk
      let (ok, attrName0, nsPfx, block) := consumeName block
      if !ok then (none, st, rest)
      else if attrName0 = .universal then (none, st, rest)
      else
        let block := consumeWhitespaceL block
        let attrName :=
          if cx.isHTMLDocument then attrName0.lowerASCII else attrName0
        let nsURI := determineNamespace cx st nsPfx
        if nsURI.isNull then (none, st, rest)
        else
          let qn : QualifiedName :=
            if nsPfx.isNull then ⟨.nullAtom, attrName, .nullAtom⟩
            else ⟨nsPfx, attrName, nsURI⟩
          if block.isEmpty then
            (some (.mk {matchType := .attributeSet, attr := some qn,
                        attrMatchFlags := .caseSensitive} none none),
             st, rest)
          else
            let (mt, st1, block1) := consumeAttributeMatchT st block
            let (valueTok, block2) := consumeIncludingWhitespaceT block1
            let value? : Option Atom :=
              match valueTok with
              | .ident v => some (.str v)
              | .string v => some (.str v)
              | _ => none
            match value? with
            | none => (none, st1, rest)
            | some v =>
                let (flags, st2, block3) :=
                  consumeAttributeFlagsT cx st1 block2
                if !block3.isEmpty then (none, st2, rest)
                else
                  (some (.mk {matchType := mt, value := v, attr := some qn,
                              attrMatchFlags := flags} none none),
                   st2, rest)
  | _ => (none, st, range)

/-- `::part()` argument loop (css_selector_parser.cc:1018-1028): one or
more space-separated identifiers, fueled by the block length (each step
consumes at least one token). -/
def partNamesGo : Nat → Toks → Option (List String)
  | 0, _ => none
  | fuel + 1, blk =>
      let (tok, rest) := consumeIncludingWhitespaceT blk
      match tok with
      | .ident s =>
          if rest.isEmpty then some [s]
          else (partNamesGo fuel rest).map (s :: ·)
      | _ => none

def consumePartNames (blk : Toks) : Option (List String) :=
  partNamesGo (blk.length + 1) blk


/-- The post-loop logic of `ConsumeForgivingRelativeSelectorList`
(css_selector_parser.cc:273-290): `:has()` is rejected inside
compound-only pseudos or after a restricting pseudo-element, and - as the
jQuery workaround - an empty surviving list sets the sticky failure flag
and yields an invalid list. -/
def relativePost (st : PState) (l : List Sel) (range : Toks) :
    SelVecList × PState × Toks :=
  if st.insideCompoundPseudo ||
      st.restrictingPseudoElement ≠ PseudoType.unknown then
    (none, st, range)
  else if l.isEmpty then
    (none, forcePState {st with failedParsing := true}, range)
  else (some l, st, range)

/-! Small top-level helpers keep every recursive function's body (and
therefore every kernel reduction step) small. -/

/-- Restore of the two `base::AutoReset`s of `ConsumeCompoundSelector`
(`restricting_pseudo_element_`, `ignore_default_namespace_`). -/
def restoreCompound (savedRestrict : PseudoType) (savedIgnore : Bool)
    (stx : PState) : PState :=
  forcePState
    {stx with restrictingPseudoElement := savedRestrict,
              ignoreDefaultNamespace := savedIgnore}

/-- Restore of the scoped flags of the `:is()`/`:where()`/`:not()` cases of
`ConsumePseudo` (`DisallowPseudoElementsScope`, `resist_default_namespace_`,
`is_inside_logical_combination_in_has_argument_`). -/
def restoreLogical (st1 stB : PState) : PState :=
  forcePState
    {stB with disallowPseudoElements := st1.disallowPseudoElements,
              resistDefaultNamespace := st1.resistDefaultNamespace,
              isInsideLogicalCombinationInHasArgument :=
                st1.isInsideLogicalCombinationInHasArgument}

/-- Restore of the scoped flags of the
`:host()`/`:host-context()`/`:-webkit-any()`/`::cue()` case. -/
def restoreHostFamily (st1 stB : PState) : PState :=
  forcePState
    {stB with disallowPseudoElements := st1.disallowPseudoElements,
              insideCompoundPseudo := st1.insideCompoundPseudo,
              ignoreDefaultNamespace := st1.ignoreDefaultNamespace}

/-- Restore of the scoped flags of the `:has()` case. -/
def restoreHas (st1 stB : PState) : PState :=
  forcePState
    {stB with disallowPseudoElements := st1.disallowPseudoElements,
              resistDefaultNamespace := st1.resistDefaultNamespace,
              isInsideHasArgument := st1.isInsideHasArgument,
              foundPseudoInHasArgument := st1.foundPseudoInHasArgument,
              foundComplexLogicalCombinationsInHasArgument :=
                st1.foundComplexLogicalCombinationsInHasArgument}

/-- Restore of the scoped flags of the `::slotted()` case. -/
def restoreSlotted (st1 stB : PState) : PState :=
  forcePState
    {stB with disallowPseudoElements := st1.disallowPseudoElements,
              insideCompoundPseudo := st1.insideCompoundPseudo}

/-- The identifier-token tail of `ConsumePseudo`
(css_selector_parser.cc:846-896): colon-count → match kind,
`UpdatePseudoType`, the pseudo-element/`:has()`-argument early rejections,
then consume the identifier and reject unknown pseudo-types. -/
def pseudoIdentCase (cx : PContext) (st : PState) (colons : Nat)
    (v : String) (r1 : Toks) : Option Sel × PState × Toks :=
  let m0 := if colons = 1 then MatchType.pseudoCls else MatchType.pseudoElem
  let (m, pt, lv) := updatePseudoType m0 v false cx
  if m = .pseudoElem && st.disallowPseudoElements then (none, st, r1)
  else if st.isInsideHasArgument &&
      !isPseudoClsValidWithinHasArgument pt then (none, st, r1)
  else
    let st1 :=
      if st.isInsideHasArgument then
        forcePState {st with foundPseudoInHasArgument := true}
      else st
    let r2 := r1.tail
    if pt = .unknown then (none, st1, r2)
    else
      (some (.mk {matchType := m, pseudoType := pt, value := .str lv} none
        none), st1, r2)

/-- The `:dir()`/`:lang()`/`::highlight()` argument case of
`ConsumePseudo`: one identifier, nothing after it. -/
def pseudoCaseArgIdent (d : SelData) (st1 : PState) (block r2 : Toks) :
    Option Sel × PState × Toks :=
  let (tok, blockRest) := consumeIncludingWhitespaceT block
  match tok with
  | .ident s =>
      if blockRest.isEmpty then
        (some (.mk {d with argument := .str s} none none), st1, r2)
      else (none, st1, r2)
  | _ => (none, st1, r2)

/-- The `::part()` case of `ConsumePseudo`. -/
def pseudoCasePart (d : SelData) (st1 : PState) (block r2 : Toks) :
    Option Sel × PState × Toks :=
  match consumePartNames block with
  | none => (none, st1, r2)
  | some parts =>
      (some (.mk {d with partNames := some parts} none none), st1, r2)

/-- The `::page-transition-*()` case of `ConsumePseudo`: one identifier or
`*`. -/
def pseudoCasePageTransition (d : SelData) (st1 : PState) (block r2 : Toks) :
    Option Sel × PState × Toks :=
  let (tok, blockRest) := consumeIncludingWhitespaceT block
  if !blockRest.isEmpty then (none, st1, r2)
  else
    match tok with
    | .ident s =>
        (some (.mk {d with argument := .str s} none none), st1, r2)
    | .delim '*' =>
        (some (.mk {d with argument := .universal} none none), st1, r2)
    | _ => (none, st1, r2)

/-- The `:nth-*()` case of `ConsumePseudo`: the An+B micro-grammar
followed by the end of the block. -/
def pseudoCaseNth (d : SelData) (st1 : PState) (block r2 : Toks) :
    Option Sel × PState × Toks :=
  match consumeANPlusB block with
  | (none, _) => (none, st1, r2)
  | (some ab, blockRest0) =>
      let blockRest := consumeWhitespaceL blockRest0
      if !blockRest.isEmpty then (none, st1, r2)
      else (some (.mk {d with nth := some ab} none none), st1, r2)

/-- The optional second token of `:toggle()`: a custom-ident or a
non-negative integer. -/
def toggleValueOf : CSSParserToken → Option ToggleState
  | .ident vs =>
      if isCustomIdentName vs then some (.identState (.str vs)) else none
  | .number isInt _ n =>
      if isInt && n ≥ 0 then some (.numberState n) else none
  | _ => none

/-- The `:toggle()` case of `ConsumePseudo`. -/
def pseudoCaseToggle (d : SelData) (st1 : PState) (block r2 : Toks) :
    Option Sel × PState × Toks :=
  let (nameTok, b1) := consumeIncludingWhitespaceT block
  match nameTok with
  | .ident nm =>
      if !isCustomIdentName nm then (none, st1, r2)
      else if b1.isEmpty then
        (some (.mk {d with toggleName := .str nm} none none), st1, r2)
      else
        let (vTok, b2) := consumeIncludingWhitespaceT b1
        match toggleValueOf vTok with
        | none => (none, st1, r2)
        | some tv =>
            if b2.isEmpty then
              let d2 := {d with toggleName := .str nm}
              (some (.mk {d2 with toggleValue := some tv} none none), st1,
               r2)
            else (none, st1, r2)
  | _ => (none, st1, r2)

/-- The tail of the `:host()`/`:host-context()`/`:-webkit-any()`/`::cue()`
case: the compound list must be valid and fully consumed, and
`:host`/`:host-context` additionally require exactly one selector. -/
def hostFamilyFinish (pt : PseudoType) (d : SelData) (lst? : SelVecList)
    (blockRest : Toks) (stC : PState) (r2 : Toks) :
    Option Sel × PState × Toks :=
  match lst? with
  | none => (none, stC, r2)
  | some l =>
      if !blockRest.isEmpty then (none, stC, r2)
      else if l.length ≠ 1 &&
          (pt = PseudoType.host || pt = PseudoType.hostContext) then
        (none, stC, r2)
      else (some (.mk d (some (some l)) none), stC, r2)

/-- The tail of the `:has()` case: read the found-pseudo flags before the
scope restore, require a valid (non-empty) and fully consumed list. -/
def hasFinish (st1 : PState) (d : SelData) (lst? : SelVecList)
    (blockRest : Toks) (stB : PState) (r2 : Toks) :
    Option Sel × PState × Toks :=
  let foundP := stB.foundPseudoInHasArgument
  let foundC := stB.foundComplexLogicalCombinationsInHasArgument
  let stC := restoreHas st1 stB
  match lst? with
  | none => (none, stC, r2)
  | some l =>
      if !blockRest.isEmpty then (none, stC, r2)
      else
        let d2 := {d with containsPseudoInsideHas := foundP}
        (some (.mk {d2 with containsComplexInsideHas := foundC}
          (some (some l)) none), stC, r2)

/-- The validity tail of `ConsumeSimpleSelector`
(css_selector_parser.cc:702-711): a null selector, or one that is illegal
after the compound's restricting pseudo-element outside UA-sheet mode,
sets the sticky failure flag. -/
def simplePost (cx : PContext) (t : Option Sel × PState × Toks) :
    Option Sel × PState × Toks :=
  match t with
  | (s?, st1, r1) =>
      match s? with
      | none =>
          (none, forcePState {st1 with failedParsing := true}, r1)
      | some simple0 =>
          let simple := forceSel simple0
          let valid :=
            cx.mode == ParserMode.uaSheetMode ||
              isSimpleSelectorValidAfterPseudoElement cx simple
                st1.restrictingPseudoElement
          (some simple,
           if valid then st1
           else forcePState {st1 with failedParsing := true},
           r1)

/-- The keep-or-drop decision of one forgiving-list member: kept only when
it parsed, did not set the failure flag, and consumed its whole
comma-delimited span. -/
def forgivingKeep (acc : List Sel) (s? : Option Sel) (failed : Bool)
    (argRest : Toks) : List Sel :=
  match s? with
  | some s => if !failed && argRest.isEmpty then acc ++ [s] else acc
  | none => acc

/-- The tail of `ConsumeCompoundSelector` after the simple-selector loop
(css_selector_parser.cc:650-686): compute the namespace-ignoring flag for
the remainder (subject position inside a resisting nested context), then
either build a bare type selector from the consumed qualified name -
failing hard on an unresolvable namespace - or prepend a type selector if
needed and split at implicit shadow-crossing combinators; finally restore
the two saved flags. -/
def compoundFinish (cx : PContext) (savedRestrict : PseudoType)
    (savedIgnore : Bool) (nsPfx : Atom) (hasQ : Bool) (elementName0 : Atom)
    (compound1 : Option Sel) (stB : PState) (r3 : Toks) :
    Option Sel × PState × Toks :=
  let elementName :=
    if cx.isHTMLDocument then elementName0.lowerASCII else elementName0
  let newIgnore := stB.ignoreDefaultNamespace ||
    (stB.resistDefaultNamespace && !hasQ && atEndIgnoringWhitespace r3)
  let stC := forcePState {stB with ignoreDefaultNamespace := newIgnore}
  match compound1 with
  | none =>
      let nsURI := determineNamespace cx stC nsPfx
      if nsURI.isNull then
        (none,
         restoreCompound savedRestrict savedIgnore
           {stC with failedParsing := true}, r3)
      else
        let nsPfx' :=
          if nsURI = defaultNamespace cx stC then Atom.nullAtom else nsPfx
        (some (.mk {matchType := .tag,
                    tagQName := some ⟨nsPfx', elementName, nsURI⟩}
                none none),
         restoreCompound savedRestrict savedIgnore stC, r3)
  | some c =>
      let (stD, c') :=
        prependTypeSelectorIfNeeded cx stC nsPfx hasQ elementName c
      (some (splitCompound c'),
       restoreCompound savedRestrict savedIgnore stD, r3)

/-! ### The recursive-descent engine

The mutually recursive consume functions of `CSSSelectorParser` are
defunctionalized into one fueled step function: `PCall` names the function
being entered (with its arguments), `parserGo` performs one step of every
function with `recur` standing for the functions at the next smaller fuel,
and `parserRun` ties the knot by primitive recursion on the fuel.  Each
original function is recovered as a named wrapper below; exhausted fuel
yields the same degenerate result the corresponding function produces when
its first sub-parse fails. -/

/-- One pending call of the recursive descent (the function's arguments
minus the constant parser context and the fuel). -/
inductive PCall where
  | complexSel (st : PState) (range : Toks)
  | partialComplex (st : PState) (comb : RelationType) (sel : Sel)
      (prevFlags : Bool) (range : Toks)
  | compoundSel (st : PState) (range : Toks)
  | compoundLoop (st : PState) (range : Toks) (compound : Option Sel)
  | simpleSel (st : PState) (range : Toks)
  | pseudo (st : PState) (range : Toks)
  | pcIsWhere (st : PState) (d : SelData) (block : Toks) (r2 : Toks)
  | pcHostFamily (st : PState) (pt : PseudoType) (d : SelData)
      (block : Toks) (r2 : Toks)
  | pcHas (st : PState) (d : SelData) (block : Toks) (r2 : Toks)
  | pcNot (st : PState) (d : SelData) (block : Toks) (r2 : Toks)
  | pcSlotted (st : PState) (d : SelData) (block : Toks) (r2 : Toks)
  | relativeSel (st : PState) (range : Toks)
  | complexList (st : PState) (range : Toks)
  | complexLoop (st : PState) (range : Toks) (acc : List Sel)
  | compoundList (st : PState) (range : Toks)
  | cmpListLoop (st : PState) (range : Toks) (acc : List Sel)
  | nestedList (st : PState) (range : Toks)
  | forgNested (st : PState) (range : Toks)
  | forgComplexList (st : PState) (range : Toks)
  | forgComplexLoop (st : PState) (range : Toks) (acc : List Sel)
  | forgCompoundList (st : PState) (range : Toks)
  | forgCompoundLoop (st : PState) (range : Toks) (acc : List Sel)
  | forgRelativeList (st : PState) (range : Toks)
  | forgRelativeLoop (st : PState) (range : Toks) (acc : List Sel)

/-- The selector payload of one call's result: a single (optional)
selector, a selector vector, or a `CSSSelectorList`. -/
inductive PRes where
  | rSel (s : Option Sel)
  | rVec (v : List Sel)
  | rSelv (v : SelVecList)

/-- A call's full result: payload, parser state, remaining range. -/
abbrev POut := PRes × PState × Toks

def POut.toSel (o : POut) : Option Sel × PState × Toks :=
  ((match o.1 with | .rSel s => s | _ => none), o.2.1, o.2.2)

def POut.toVec (o : POut) : List Sel × PState × Toks :=
  ((match o.1 with | .rVec v => v | _ => []), o.2.1, o.2.2)

def POut.toSelv (o : POut) : SelVecList × PState × Toks :=
  ((match o.1 with | .rSelv v => v | _ => none), o.2.1, o.2.2)

def selOut (t : Option Sel × PState × Toks) : POut :=
  (.rSel t.1, t.2.1, t.2.2)

def vecOut (t : List Sel × PState × Toks) : POut :=
  (.rVec t.1, t.2.1, t.2.2)

def selvOut (t : SelVecList × PState × Toks) : POut :=
  (.rSelv t.1, t.2.1, t.2.2)

/-- The exhausted-fuel result of each call: exactly the value the
function's loop/first sub-parse failure path produces. -/
def parserBase : PCall → POut
  | .complexSel st range => selOut (none, st, range)
  | .partialComplex st _ _ _ range => selOut (none, st, range)
  | .compoundSel st range => selOut (none, st, range)
  | .compoundLoop st range compound => selOut (compound, st, range)
  | .simpleSel st range => selOut (none, st, range)
  | .pseudo st range => selOut (none, st, range)
  | .pcIsWhere st _ _ r2 => selOut (none, st, r2)
  | .pcHostFamily st _ _ _ r2 => selOut (none, st, r2)
  | .pcHas st _ _ r2 => selOut (none, st, r2)
  | .pcNot st _ _ r2 => selOut (none, st, r2)
  | .pcSlotted st _ _ r2 => selOut (none, st, r2)
  | .relativeSel st range => selOut (none, st, range)
  | .complexList st range => vecOut ([], st, range)
  | .complexLoop st range _ => vecOut ([], st, range)
  | .compoundList st range => selvOut (none, st, range)
  | .cmpListLoop st range _ => selvOut (none, st, range)
  | .nestedList st range => selvOut (none, st, range)
  | .forgNested st range => selvOut (none, st, range)
  | .forgComplexList st range => selvOut (none, st, range)
  | .forgComplexLoop st range acc => vecOut (acc, st, range)
  | .forgCompoundList st range => selvOut (none, st, range)
  | .forgCompoundLoop st range acc => vecOut (acc, st, range)
  | .forgRelativeList st range => selvOut (relativePost st [] range)
  | .forgRelativeLoop st range acc => vecOut (acc, st, range)

/-- One step of every consume function of `CSSSelectorParser`
(css_selector_parser.cc); `recur` performs the recursive descent at the
next smaller fuel.  The per-function bodies are documented on the named
wrappers below. -/
def parserGo (cx : PContext) (recur : PCall → POut) : PCall → POut
  | .complexSel st range =>
      -- ConsumeComplexSelector (css_selector_parser.cc:351-373)
      selOut (
        let (c?, st1, r1) := POut.toSel (recur (.compoundSel st range))
        match c? with
        | none => (none, st1, r1)
        | some c =>
            let prevFlags := chainHasPseudoElemFlag cx.mode c
            let (comb, r2) := consumeCombinator r1
            if comb = .subSelector then (some c, st1, r2)
            else
              let st2 :=
                if st1.isInsideHasArgument &&
                    st1.isInsideLogicalCombinationInHasArgument then
                  forcePState
                    {st1 with
                      foundComplexLogicalCombinationsInHasArgument := true}
                else st1
              POut.toSel (recur (.partialComplex st2 comb c prevFlags r2)))
  | .partialComplex st comb sel prevFlags range =>
      -- ConsumePartialComplexSelector (css_selector_parser.cc:375-403)
      selOut (
        let (n?, st1, r1) := POut.toSel (recur (.compoundSel st range))
        match n? with
        | none =>
            if comb = .descendant then (some sel, st1, r1)
            else (none, st1, r1)
        | some n =>
            if prevFlags then (none, st1, r1)
            else
              let flags := chainHasPseudoElemFlag cx.mode n
              let sel' := appendTagHistory n comb sel
              let (comb', r2) := consumeCombinator r1
              if comb' = .subSelector then (some sel', st1, r2)
              else
                POut.toSel
                  (recur (.partialComplex st1 comb' sel' flags r2)))
  | .compoundSel st range =>
      -- ConsumeCompoundSelector (css_selector_parser.cc:620-686)
      selOut (
        let savedRestrict := st.restrictingPseudoElement
        let savedIgnore := st.ignoreDefaultNamespace
        let (hasQ, elementName0, nsPfx, r1) := consumeName range
        let step1 : (PState × Toks) ⊕ (Option Sel × PState × Toks) :=
          if hasQ then Sum.inr (none, st, r1)
          else
            let (s?, st1, r2) := POut.toSel (recur (.simpleSel st r1))
            match s? with
            | none => Sum.inl (st1, r2)
            | some simple =>
                let st2 :=
                  if simple.data.matchType = .pseudoElem then
                    forcePState
                      {st1 with restrictingPseudoElement :=
                        simple.data.pseudoType}
                  else st1
                Sum.inr (some simple, st2, r2)
        match step1 with
        | Sum.inl (st1, r2) =>
            (none, restoreCompound savedRestrict savedIgnore st1, r2)
        | Sum.inr (compound0, stA, r2) =>
            let (compound1, stB, r3) :=
              POut.toSel (recur (.compoundLoop stA r2 compound0))
            compoundFinish cx savedRestrict savedIgnore nsPfx hasQ
              elementName0 compound1 stB r3)
  | .compoundLoop st range compound =>
      -- the simple-selector loop of ConsumeCompoundSelector (639-649)
      selOut (
        let (s?, st1, r1) := POut.toSel (recur (.simpleSel st range))
        match s? with
        | none => (compound, st1, r1)
        | some simple =>
            let st2 :=
              if simple.data.matchType = .pseudoElem then
                forcePState
                  {st1 with restrictingPseudoElement :=
                    simple.data.pseudoType}
              else st1
            let compound' : Option Sel :=
              match compound with
              | some c => some (appendTagHistory c .subSelector simple)
              | none => some simple
            POut.toSel (recur (.compoundLoop st2 r1 compound')))
  | .simpleSel st range =>
      -- ConsumeSimpleSelector (css_selector_parser.cc:688-712)
      selOut (
        match peekT range with
        | .hash _ _ =>
            simplePost cx (let (x, r) := consumeId range; (x, st, r))
        | .delim '.' =>
            simplePost cx (let (x, r) := consumeCls range; (x, st, r))
        | .leftBracket _ => simplePost cx (consumeAttr cx st range)
        | .colon => simplePost cx (POut.toSel (recur (.pseudo st range)))
        | _ => (none, st, range))
  | .pseudo st range =>
      -- ConsumePseudo (css_selector_parser.cc:841-1130)
      selOut (
        match range with
        | .colon :: r0 =>
            let (colons, r1) : Nat × Toks :=
              match r0 with
              | .colon :: rr => (2, rr)
              | _ => (1, r0)
            match peekT r1 with
            | .ident v => pseudoIdentCase cx st colons v r1
            | .function fname blk =>
                let m0 := if colons = 1 then MatchType.pseudoCls
                          else MatchType.pseudoElem
                let (m, pt, lv) := updatePseudoType m0 fname true cx
                if m = .pseudoElem && st.disallowPseudoElements then
                  (none, st, r1)
                else if st.isInsideHasArgument &&
                    !isPseudoClsValidWithinHasArgument pt then
                  (none, st, r1)
                else
                  let st1 :=
                    if st.isInsideHasArgument then
                      forcePState {st with foundPseudoInHasArgument := true}
                    else st
                  let r2 := r1.tail
                  let block := consumeWhitespaceL blk
                  if pt = .unknown then (none, st1, r2)
                  else
                    let d : SelData :=
                      {matchType := m, pseudoType := pt, value := .str lv}
                    match pt with
                    | .is' | .where' =>
                        POut.toSel (recur (.pcIsWhere st1 d block r2))
                    | .host | .hostContext | .any | .cue =>
                        POut.toSel
                          (recur (.pcHostFamily st1 pt d block r2))
                    | .has' => POut.toSel (recur (.pcHas st1 d block r2))
                    | .not' => POut.toSel (recur (.pcNot st1 d block r2))
                    | .slotted =>
                        POut.toSel (recur (.pcSlotted st1 d block r2))
                    | .dir | .lang | .highlight =>
                        pseudoCaseArgIdent d st1 block r2
                    | .part => pseudoCasePart d st1 block r2
                    | .pageTransitionContainer
                    | .pageTransitionImageWrapper
                    | .pageTransitionOutgoingImage
                    | .pageTransitionIncomingImage =>
                        pseudoCasePageTransition d st1 block r2
                    | .nthChild | .nthLastChild | .nthOfType
                    | .nthLastOfType => pseudoCaseNth d st1 block r2
                    | .toggle => pseudoCaseToggle d st1 block r2
                    | _ => (none, st1, r2)
            | _ => (none, st, r1)
        | _ => (none, st, range))
  | .pcIsWhere st1 d block r2 =>
      -- the :is()/:where() case of ConsumePseudo (904-933)
      selOut (
        let stA := forcePState {st1 with
          disallowPseudoElements := true,
          resistDefaultNamespace := true,
          isInsideLogicalCombinationInHasArgument :=
            st1.isInsideHasArgument}
        let (lst, stB, blockRest) :=
          POut.toSelv (recur (.forgNested stA block))
        let stC := restoreLogical st1 stB
        if blockRest.isEmpty then (some (.mk d (some lst) none), stC, r2)
        else (none, stC, r2))
  | .pcHostFamily st1 pt d block r2 =>
      -- the :host()/:host-context()/:-webkit-any()/::cue() case (934-960)
      selOut (
        let stA := forcePState {st1 with
          disallowPseudoElements := true,
          insideCompoundPseudo := true,
          ignoreDefaultNamespace :=
            st1.ignoreDefaultNamespace || pt = PseudoType.cue}
        let (lst?, stB, blockRest) :=
          POut.toSelv (recur (.compoundList stA block))
        hostFamilyFinish pt d lst? blockRest (restoreHostFamily st1 stB)
          r2)
  | .pcHas st1 d block r2 =>
      -- the :has() case of ConsumePseudo (961-994)
      selOut (
        if !cx.cssPseudoHasEnabled then (none, st1, r2)
        else
          let stA := forcePState {st1 with
            disallowPseudoElements := true,
            resistDefaultNamespace := true,
            isInsideHasArgument := true,
            foundPseudoInHasArgument := false,
            foundComplexLogicalCombinationsInHasArgument := false}
          let (lst?, stB, blockRest) :=
            POut.toSelv (recur (.forgRelativeList stA block))
          hasFinish st1 d lst? blockRest stB r2)
  | .pcNot st1 d block r2 =>
      -- the :not() case of ConsumePseudo (995-1010)
      selOut (
        let stA := forcePState {st1 with
          disallowPseudoElements := true,
          resistDefaultNamespace := true,
          isInsideLogicalCombinationInHasArgument :=
            st1.isInsideHasArgument}
        let (lst?, stB, blockRest) :=
          POut.toSelv (recur (.nestedList stA block))
        let stC := restoreLogical st1 stB
        match lst? with
        | none => (none, stC, r2)
        | some l =>
            if !blockRest.isEmpty then (none, stC, r2)
            else (some (.mk d (some (some l)) none), stC, r2))
  | .pcSlotted st1 d block r2 =>
      -- the ::slotted() case of ConsumePseudo (1049-1062)
      selOut (
        let stA := forcePState {st1 with
          disallowPseudoElements := true,
          insideCompoundPseudo := true}
        let (inner?, stB, blockRest0) :=
          POut.toSel (recur (.compoundSel stA block))
        let blockRest := consumeWhitespaceL blockRest0
        let stC := restoreSlotted st1 stB
        match inner? with
        | none => (none, stC, r2)
        | some inner =>
            if !blockRest.isEmpty then (none, stC, r2)
            else (some (.mk d (some (some [inner])) none), stC, r2))
  | .relativeSel st range =>
      -- ConsumeRelativeSelector (css_selector_parser.cc:316-349)
      selOut (
        let (m, pt, lv) :=
          updatePseudoType .pseudoCls "-internal-relative-anchor" false cx
        let anchor : Sel :=
          .mk {matchType := m, pseudoType := pt, value := .str lv} none
            none
        let (comb, r1) := consumeCombinator range
        let comb'? : Option RelationType :=
          match comb with
          | .subSelector | .descendant => some .relativeDescendant
          | .child => some .relativeChild
          | .directAdjacent => some .relativeDirectAdjacent
          | .indirectAdjacent => some .relativeIndirectAdjacent
          | _ => none
        match comb'? with
        | none => (none, st, r1)
        | some comb' =>
            POut.toSel (recur (.partialComplex st comb' anchor false r1)))
  | .complexList st range =>
      -- ConsumeComplexSelectorList (css_selector_parser.cc:118-137)
      vecOut (
        let (s?, st1, r1) := POut.toSel (recur (.complexSel st range))
        match s? with
        | none => ([], st1, r1)
        | some s => POut.toVec (recur (.complexLoop st1 r1 [s])))
  | .complexLoop st range acc =>
      -- the comma loop and final failure check of
      -- ConsumeComplexSelectorList (125-136)
      vecOut (
        if isCommaT (peekT range) then
          let r1 := (consumeIncludingWhitespaceT range).2
          let (s?, st1, r2) := POut.toSel (recur (.complexSel st r1))
          match s? with
          | none => ([], st1, r2)
          | some s => POut.toVec (recur (.complexLoop st1 r2 (acc ++ [s])))
        else (if st.failedParsing then [] else acc, st, range))
  | .compoundList st range =>
      -- ConsumeCompoundSelectorList (css_selector_parser.cc:172-193)
      selvOut (
        let (s?, st1, r1) := POut.toSel (recur (.compoundSel st range))
        let r2 := consumeWhitespaceL r1
        match s? with
        | none => (none, st1, r2)
        | some s => POut.toSelv (recur (.cmpListLoop st1 r2 [s])))
  | .cmpListLoop st range acc =>
      -- the comma loop and final failure check of
      -- ConsumeCompoundSelectorList (180-192)
      selvOut (
        if isCommaT (peekT range) then
          let r1 := (consumeIncludingWhitespaceT range).2
          let (s?, st1, r2) := POut.toSel (recur (.compoundSel st r1))
          let r3 := consumeWhitespaceL r2
          match s? with
          | none => (none, st1, r3)
          | some s => POut.toSelv (recur (.cmpListLoop st1 r3 (acc ++ [s])))
        else (if st.failedParsing then none else some acc, st, range))
  | .nestedList st range =>
      -- ConsumeNestedSelectorList (css_selector_parser.cc:195-203)
      selvOut (
        if st.insideCompoundPseudo then
          POut.toSelv (recur (.compoundList st range))
        else
          let (v, st1, r1) := POut.toVec (recur (.complexList st range))
          (if v.isEmpty then none else some v, st1, r1))
  | .forgNested st range =>
      -- ConsumeForgivingNestedSelectorList (css_selector_parser.cc:205-210)
      selvOut (
        if st.insideCompoundPseudo then
          POut.toSelv (recur (.forgCompoundList st range))
        else POut.toSelv (recur (.forgComplexList st range)))
  | .forgComplexList st range =>
      -- ConsumeForgivingComplexSelectorList (css_selector_parser.cc:212-232)
      selvOut (
        let (l, st1, r1) := POut.toVec (recur (.forgComplexLoop st range []))
        (if l.isEmpty then none else some l, st1, r1))
  | .forgComplexLoop st range acc =>
      -- the member loop of ConsumeForgivingComplexSelectorList
      vecOut (
        if range.isEmpty then (acc, st, range)
        else
          let saved := st.failedParsing
          let (arg0, r1) := consumeNestedArgument range
          let arg := forceToks arg0
          let (s?, st1, argRest) :=
            POut.toSel
              (recur (.complexSel
                (forcePState {st with failedParsing := false}) arg))
          let acc' := forgivingKeep acc s? st1.failedParsing argRest
          let st2 := forcePState {st1 with failedParsing := saved}
          if isCommaT (peekT r1) then
            POut.toVec
              (recur (.forgComplexLoop st2
                ((consumeIncludingWhitespaceT r1).2) acc'))
          else (acc', st2, r1))
  | .forgCompoundList st range =>
      -- ConsumeForgivingCompoundSelectorList (css_selector_parser.cc:234-255)
      selvOut (
        let (l, st1, r1) :=
          POut.toVec (recur (.forgCompoundLoop st range []))
        (if l.isEmpty then none else some l, st1, r1))
  | .forgCompoundLoop st range acc =>
      -- the member loop of ConsumeForgivingCompoundSelectorList
      vecOut (
        if range.isEmpty then (acc, st, range)
        else
          let saved := st.failedParsing
          let (arg0, r1) := consumeNestedArgument range
          let arg := forceToks arg0
          let (s?, st1, argRest0) :=
            POut.toSel
              (recur (.compoundSel
                (forcePState {st with failedParsing := false}) arg))
          let argRest := consumeWhitespaceL argRest0
          let acc' := forgivingKeep acc s? st1.failedParsing argRest
          let st2 := forcePState {st1 with failedParsing := saved}
          if isCommaT (peekT r1) then
            POut.toVec
              (recur (.forgCompoundLoop st2
                ((consumeIncludingWhitespaceT r1).2) acc'))
          else (acc', st2, r1))
  | .forgRelativeList st range =>
      -- ConsumeForgivingRelativeSelectorList (css_selector_parser.cc:257-291)
      selvOut (
        let (l, st1, r1) :=
          POut.toVec (recur (.forgRelativeLoop st range []))
        relativePost st1 l r1)
  | .forgRelativeLoop st range acc =>
      -- the member loop of ConsumeForgivingRelativeSelectorList
      vecOut (
        if range.isEmpty then (acc, st, range)
        else
          let saved := st.failedParsing
          let (arg0, r1) := consumeNestedArgument range
          let arg := forceToks arg0
          let (s?, st1, argRest) :=
            POut.toSel
              (recur (.relativeSel
                (forcePState {st with failedParsing := false}) arg))
          let acc' := forgivingKeep acc s? st1.failedParsing argRest
          let st2 := forcePState {st1 with failedParsing := saved}
          if isCommaT (peekT r1) then
            POut.toVec
              (recur (.forgRelativeLoop st2
                ((consumeIncludingWhitespaceT r1).2) acc'))
          else (acc', st2, r1))

/-- The fueled recursive descent: primitive recursion on the fuel. -/
def parserRun (fuel : Nat) (cx : PContext) : PCall → POut :=
  Nat.rec parserBase (fun _ ih => parserGo cx ih) fuel

theorem parserRun_zero (cx : PContext) (c : PCall) :
    parserRun 0 cx c = parserBase c := rfl

theorem parserRun_succ (fuel : Nat) (cx : PContext) (c : PCall) :
    parserRun (fuel + 1) cx c = parserGo cx (parserRun fuel cx) c := rfl

/-- `CSSSelectorParser::ConsumeComplexSelector`
(css_selector_parser.cc:351-373): one compound selector, then - while a
combinator follows - further compounds via
`ConsumePartialComplexSelector`, tracking the compound-flags accumulator
over the already-built chain. -/
def consumeComplexSelector (fuel : Nat) (cx : PContext) (st : PState)
    (range : Toks) : Option Sel × PState × Toks :=
  POut.toSel (parserRun fuel cx (.complexSel st range))

/-- `CSSSelectorParser::ConsumePartialComplexSelector`
(css_selector_parser.cc:375-403): the do-while loop linking further
compounds; a compound already containing a rightmost-only pseudo-element
(`previous_compound_flags`) makes any further compound illegal. -/
def consumePartialComplexSelector (fuel : Nat) (cx : PContext)
    (st : PState) (comb : RelationType) (sel : Sel) (prevFlags : Bool)
    (range : Toks) : Option Sel × PState × Toks :=
  POut.toSel (parserRun fuel cx (.partialComplex st comb sel prevFlags
    range))

/-- `CSSSelectorParser::ConsumeCompoundSelector`
(css_selector_parser.cc:620-686): optional qualified name, the
simple-selector loop, namespace determination (hard failure on an
unresolvable prefix), type-selector prepending and implicit
shadow-crossing splitting.  `restricting_pseudo_element_` and
`ignore_default_namespace_` are saved on entry and restored on every exit
(the two `base::AutoReset`s). -/
def consumeCompoundSelector (fuel : Nat) (cx : PContext) (st : PState)
    (range : Toks) : Option Sel × PState × Toks :=
  POut.toSel (parserRun fuel cx (.compoundSel st range))

/-- The `while (simple_selector = ConsumeSimpleSelector(range))` loop of
`ConsumeCompoundSelector` (css_selector_parser.cc:639-649), updating
`restricting_pseudo_element_` when a pseudo-element is consumed and
chaining simple selectors with `AddSimpleSelectorToCompound`. -/
def consumeCompoundLoop (fuel : Nat) (cx : PContext) (st : PState)
    (range : Toks) (compound : Option Sel) : Option Sel × PState × Toks :=
  POut.toSel (parserRun fuel cx (.compoundLoop st range compound))

/-- `CSSSelectorParser::ConsumeSimpleSelector`
(css_selector_parser.cc:688-712): dispatch on the next token (hash → id,
`.` → class, `[` → attribute, `:` → pseudo, anything else ends the
compound without failing); a failed sub-parse or a selector illegal after
the restricting pseudo-element sets the sticky failure flag
(`simplePost`). -/
def consumeSimpleSelector (fuel : Nat) (cx : PContext) (st : PState)
    (range : Toks) : Option Sel × PState × Toks :=
  POut.toSel (parserRun fuel cx (.simpleSel st range))

/-- `CSSSelectorParser::ConsumePseudo` (css_selector_parser.cc:841-1130):
count colons, resolve the pseudo-type, apply the pseudo-element /
`:has()`-argument rejections, then dispatch the functional argument
micro-grammars. -/
def consumePseudo (fuel : Nat) (cx : PContext) (st : PState)
    (range : Toks) : Option Sel × PState × Toks :=
  POut.toSel (parserRun fuel cx (.pseudo st range))

/-- `CSSSelectorParser::ConsumeRelativeSelector`
(css_selector_parser.cc:316-349): synthesize the
`-internal-relative-anchor` pseudo-class, map the leading combinator to
its relative variant, and continue as a partial complex selector with
empty previous compound flags. -/
def consumeRelativeSelector (fuel : Nat) (cx : PContext) (st : PState)
    (range : Toks) : Option Sel × PState × Toks :=
  POut.toSel (parserRun fuel cx (.relativeSel st range))

/-- `CSSSelectorParser::ConsumeComplexSelectorList` (range overload,
css_selector_parser.cc:118-137): first member, then the comma loop; any
member failure or a set sticky flag yields the empty vector. -/
def consumeComplexSelectorList (fuel : Nat) (cx : PContext) (st : PState)
    (range : Toks) : List Sel × PState × Toks :=
  POut.toVec (parserRun fuel cx (.complexList st range))

/-- The comma loop (and final sticky-failure check) of
`ConsumeComplexSelectorList` (css_selector_parser.cc:125-136). -/
def complexListLoop (fuel : Nat) (cx : PContext) (st : PState)
    (range : Toks) (acc : List Sel) : List Sel × PState × Toks :=
  POut.toVec (parserRun fuel cx (.complexLoop st range acc))

/-- `CSSSelectorParser::ConsumeCompoundSelectorList`
(css_selector_parser.cc:172-193). -/
def consumeCompoundSelectorList (fuel : Nat) (cx : PContext) (st : PState)
    (range : Toks) : SelVecList × PState × Toks :=
  POut.toSelv (parserRun fuel cx (.compoundList st range))

/-- The comma loop (and final sticky-failure check) of
`ConsumeCompoundSelectorList` (css_selector_parser.cc:180-192). -/
def compoundListLoop (fuel : Nat) (cx : PContext) (st : PState)
    (range : Toks) (acc : List Sel) : SelVecList × PState × Toks :=
  POut.toSelv (parserRun fuel cx (.cmpListLoop st range acc))

/-- `CSSSelectorParser::ConsumeNestedSelectorList`
(css_selector_parser.cc:195-203): compound list inside compound-only
pseudos, otherwise a strict complex list whose empty result is the
invalid list. -/
def consumeNestedSelectorList (fuel : Nat) (cx : PContext) (st : PState)
    (range : Toks) : SelVecList × PState × Toks :=
  POut.toSelv (parserRun fuel cx (.nestedList st range))

/-- `CSSSelectorParser::ConsumeForgivingNestedSelectorList`
(css_selector_parser.cc:205-210). -/
def consumeForgivingNestedSelectorList (fuel : Nat) (cx : PContext)
    (st : PState) (range : Toks) : SelVecList × PState × Toks :=
  POut.toSelv (parserRun fuel cx (.forgNested st range))

/-- `CSSSelectorParser::ConsumeForgivingComplexSelectorList`
(css_selector_parser.cc:212-232): an empty surviving vector yields the
default-constructed (invalid) list. -/
def consumeForgivingComplexSelectorList (fuel : Nat) (cx : PContext)
    (st : PState) (range : Toks) : SelVecList × PState × Toks :=
  POut.toSelv (parserRun fuel cx (.forgComplexList st range))

/-- The member loop of `ConsumeForgivingComplexSelectorList`
(css_selector_parser.cc:216-226): per member, `failed_parsing_` is saved
and reset (`base::AutoReset`), the member's comma-delimited span is
parsed, survivors are kept per `forgivingKeep`, and the flag is restored
at the end of the iteration. -/
def forgivingComplexLoop (fuel : Nat) (cx : PContext) (st : PState)
    (range : Toks) (acc : List Sel) : List Sel × PState × Toks :=
  POut.toVec (parserRun fuel cx (.forgComplexLoop st range acc))

/-- `CSSSelectorParser::ConsumeForgivingCompoundSelectorList`
(css_selector_parser.cc:234-255). -/
def consumeForgivingCompoundSelectorList (fuel : Nat) (cx : PContext)
    (st : PState) (range : Toks) : SelVecList × PState × Toks :=
  POut.toSelv (parserRun fuel cx (.forgCompoundList st range))

/-- The member loop of `ConsumeForgivingCompoundSelectorList`. -/
def forgivingCompoundLoop (fuel : Nat) (cx : PContext) (st : PState)
    (range : Toks) (acc : List Sel) : List Sel × PState × Toks :=
  POut.toVec (parserRun fuel cx (.forgCompoundLoop st range acc))

/-- `CSSSelectorParser::ConsumeForgivingRelativeSelectorList`
(css_selector_parser.cc:257-291): the member loop followed by
`relativePost` (the compound-pseudo/restricting rejection and the
empty-list sticky failure). -/
def consumeForgivingRelativeSelectorList (fuel : Nat) (cx : PContext)
    (st : PState) (range : Toks) : SelVecList × PState × Toks :=
  POut.toSelv (parserRun fuel cx (.forgRelativeList st range))

/-- The member loop of `ConsumeForgivingRelativeSelectorList`. -/
def forgivingRelativeLoop (fuel : Nat) (cx : PContext) (st : PState)
    (range : Toks) (acc : List Sel) : List Sel × PState × Toks :=
  POut.toVec (parserRun fuel cx (.forgRelativeLoop st range acc))

/-- `CSSSelectorParser::ParseSelector` (css_selector_parser.cc:51-63):
construct a fresh parser, consume leading whitespace, parse the
comma-separated complex selector list, and fail totally (empty vector) if
tokens remain.  (Usage/deprecation recording has no semantic effect and is
omitted.) -/
def parseSelector (fuel : Nat) (cx : PContext) (range : Toks) : List Sel :=
  let r0 := consumeWhitespaceL range
  let (result, _, r1) := consumeComplexSelectorList fuel cx initState r0
  if r1.isEmpty then result else []

/-! ### Verification of the specification's claims -/

/-- The default parser context of the examples. -/
def cx0 : PContext := {}

/-- A context whose stylesheet registers namespace `ns` → URI `U` and
leaves the default namespace unset (`*`). -/
def cxNs : PContext := {styleSheet := some {namespaces := [("ns", "U")]}}

/-- Node data of the class selector `.a`. -/
def aData : SelData := {matchType := .cls, value := .str "a"}

/-- Node data of an `:is()` pseudo-class node. -/
def isData : SelData :=
  {matchType := .pseudoCls, pseudoType := .is', value := .str "is"}

theorem toSel_selOut (t : Option Sel × PState × Toks) :
    POut.toSel (selOut t) = t := rfl

theorem toVec_vecOut (t : List Sel × PState × Toks) :
    POut.toVec (vecOut t) = t := rfl

theorem toSelv_selvOut (t : SelVecList × PState × Toks) :
    POut.toSelv (selvOut t) = t := rfl

/-! Folding the engine's recursive calls back into the named wrappers, and
unfolding one fuel step of the wrappers used in the proofs below. -/

theorem fold_complexSel (fuel : Nat) (cx : PContext) (st : PState)
    (r : Toks) : POut.toSel (parserRun fuel cx (.complexSel st r))
      = consumeComplexSelector fuel cx st r := rfl

theorem fold_compoundSel (fuel : Nat) (cx : PContext) (st : PState)
    (r : Toks) : POut.toSel (parserRun fuel cx (.compoundSel st r))
      = consumeCompoundSelector fuel cx st r := rfl

theorem fold_simpleSel (fuel : Nat) (cx : PContext) (st : PState)
    (r : Toks) : POut.toSel (parserRun fuel cx (.simpleSel st r))
      = consumeSimpleSelector fuel cx st r := rfl

theorem fold_complexLoop (fuel : Nat) (cx : PContext) (st : PState)
    (r : Toks) (acc : List Sel) :
    POut.toVec (parserRun fuel cx (.complexLoop st r acc))
      = complexListLoop fuel cx st r acc := rfl

theorem fold_forgComplexLoop (fuel : Nat) (cx : PContext) (st : PState)
    (r : Toks) (acc : List Sel) :
    POut.toVec (parserRun fuel cx (.forgComplexLoop st r acc))
      = forgivingComplexLoop fuel cx st r acc := rfl

theorem complexListLoop_succ (n : Nat) (cx : PContext) (st : PState)
    (range : Toks) (acc : List Sel) :
    complexListLoop (n + 1) cx st range acc
      = POut.toVec (parserGo cx (parserRun n cx) (.complexLoop st range acc))
    := rfl

theorem consumeComplexSelectorList_succ (n : Nat) (cx : PContext)
    (st : PState) (range : Toks) :
    consumeComplexSelectorList (n + 1) cx st range
      = POut.toVec (parserGo cx (parserRun n cx) (.complexList st range))
    := rfl

theorem forgivingComplexLoop_succ (n : Nat) (cx : PContext) (st : PState)
    (range : Toks) (acc : List Sel) :
    forgivingComplexLoop (n + 1) cx st range acc
      = POut.toVec
          (parserGo cx (parserRun n cx) (.forgComplexLoop st range acc))
    := rfl

theorem consumePartialComplexSelector_succ (n : Nat) (cx : PContext)
    (st : PState) (comb : RelationType) (sel : Sel) (pf : Bool)
    (range : Toks) :
    consumePartialComplexSelector (n + 1) cx st comb sel pf range
      = POut.toSel
          (parserGo cx (parserRun n cx) (.partialComplex st comb sel pf range))
    := rfl

/-! Empty-input lemmas: every consume function fails cleanly on the empty
range, at every fuel. -/

theorem consumeSimpleSelector_nil (fuel : Nat) (cx : PContext)
    (st : PState) : consumeSimpleSelector fuel cx st [] = (none, st, []) := by
  cases fuel with
  | zero => rfl
  | succ n => rfl

theorem consumeCompoundSelector_nil (fuel : Nat) (cx : PContext)
    (st : PState) :
    consumeCompoundSelector fuel cx st [] = (none, st, []) := by
  obtain ⟨f1, f2, f3, f4, f5, f6, f7, f8, f9, f10⟩ := st
  cases fuel with
  | zero => rfl
  | succ n =>
      show POut.toSel (parserGo cx (parserRun n cx)
        (.compoundSel ⟨f1, f2, f3, f4, f5, f6, f7, f8, f9, f10⟩ [])) = _
      simp only [parserGo, fold_simpleSel, toSel_selOut]
      simp [consumeName, consumeSimpleSelector_nil, restoreCompound,
        forcePState_eq]

theorem consumeComplexSelector_nil (fuel : Nat) (cx : PContext)
    (st : PState) :
    consumeComplexSelector fuel cx st [] = (none, st, []) := by
  cases fuel with
  | zero => rfl
  | succ n =>
      show POut.toSel (parserGo cx (parserRun n cx) (.complexSel st [])) = _
      simp only [parserGo, fold_compoundSel, toSel_selOut]
      simp [consumeCompoundSelector_nil]

theorem consumeComplexSelectorList_nil (fuel : Nat) (cx : PContext)
    (st : PState) :
    consumeComplexSelectorList fuel cx st [] = ([], st, []) := by
  cases fuel with
  | zero => rfl
  | succ n =>
      show POut.toVec (parserGo cx (parserRun n cx) (.complexList st [])) = _
      simp only [parserGo, fold_complexSel, toVec_vecOut]
      simp [consumeComplexSelector_nil]

theorem parseSelector_nil (fuel : Nat) (cx : PContext) :
    parseSelector fuel cx [] = [] := by
  simp [parseSelector, consumeWhitespaceL, consumeComplexSelectorList_nil]

/-- The comma loop of `ConsumeComplexSelectorList` returns a non-empty
vector only with the sticky failure flag clear
(css_selector_parser.cc:133-135). -/
theorem complexListLoop_ne_nil (fuel : Nat) : ∀ (cx : PContext)
    (st : PState) (range : Toks) (acc : List Sel),
    (complexListLoop fuel cx st range acc).1 ≠ [] →
    (complexListLoop fuel cx st range acc).2.1.failedParsing = false := by
  induction fuel with
  | zero => intro cx st range acc h; exact absurd rfl h
  | succ n ih =>
      intro cx st range acc h
      rw [complexListLoop_succ] at h ⊢
      simp only [parserGo, toVec_vecOut, fold_complexSel,
        fold_complexLoop] at h ⊢
      by_cases hc : isCommaT (peekT range) = true
      · simp only [hc, if_true] at h ⊢
        rcases hE : consumeComplexSelector n cx st
            ((consumeIncludingWhitespaceT range).2) with ⟨s?, st1, r2⟩
        simp only [hE] at h ⊢
        cases s? with
        | none => simp at h
        | some s => exact ih cx st1 r2 (acc ++ [s]) h
      · simp only [Bool.not_eq_true] at hc
        simp [hc] at h ⊢
        by_cases hf : st.failedParsing = true
        · simp [hf] at h
        · simpa using hf

/-- `ConsumeComplexSelectorList` returns a non-empty vector only with the
sticky failure flag clear. -/
theorem consumeComplexSelectorList_ne_nil (fuel : Nat) (cx : PContext)
    (st : PState) (range : Toks)
    (h : (consumeComplexSelectorList fuel cx st range).1 ≠ []) :
    (consumeComplexSelectorList fuel cx st range).2.1.failedParsing
      = false := by
  cases fuel with
  | zero => exact absurd rfl h
  | succ n =>
      rw [consumeComplexSelectorList_succ] at h ⊢
      simp only [parserGo, toVec_vecOut, fold_complexSel,
        fold_complexLoop] at h ⊢
      rcases hE : consumeComplexSelector n cx st range with ⟨s?, st1, r1⟩
      simp only [hE] at h ⊢
      cases s? with
      | none => simp at h
      | some s => exact complexListLoop_ne_nil n cx st1 r1 [s] h

/-- A non-empty `ParseSelector` result is exactly the list the
comma-separated loop built: the whole range was consumed and the sticky
failure flag is clear. -/
theorem parseSelector_ne_nil_spec (fuel : Nat) (cx : PContext)
    (range : Toks) (hne : parseSelector fuel cx range ≠ []) :
    parseSelector fuel cx range
        = (consumeComplexSelectorList fuel cx initState
            (consumeWhitespaceL range)).1 ∧
      (consumeComplexSelectorList fuel cx initState
          (consumeWhitespaceL range)).2.2 = [] ∧
      (consumeComplexSelectorList fuel cx initState
          (consumeWhitespaceL range)).2.1.failedParsing = false := by
  rcases hE : consumeComplexSelectorList fuel cx initState
      (consumeWhitespaceL range) with ⟨res, stq, r1⟩
  have hps : parseSelector fuel cx range
      = if r1.isEmpty then res else [] := by
    simp only [parseSelector]
    rw [hE]
  by_cases hr : r1.isEmpty = true
  · have hr' : r1 = [] := by
      cases r1 with
      | nil => rfl
      | cons a l => simp at hr
    have hres : parseSelector fuel cx range = res := by
      rw [hps, if_pos hr]
    have hne' : (consumeComplexSelectorList fuel cx initState
        (consumeWhitespaceL range)).1 ≠ [] := by
      rw [hE]
      exact hres ▸ hne
    have h2 := consumeComplexSelectorList_ne_nil fuel cx initState
      (consumeWhitespaceL range) hne'
    rw [hE] at h2
    exact ⟨hres, hr', h2⟩
  · exfalso
    exact hne (by rw [hps, if_neg hr])

/-- C1 : the top-level `ParseSelector` either returns the complete
comma-separated list - with nothing left of the input and the sticky
failure flag clear - or the empty vector: the empty input parses to
nothing, trailing garbage (`div)`) yields total failure, and a set sticky
failure flag forces the empty result, never a partial list. -/
theorem C1_parse_selector_total_failure :
    (∀ fuel cx, parseSelector fuel cx [] = []) ∧
    (parseSelector 12 cx0 [.ident "div", .rightParen]).isEmpty = true ∧
    (∀ fuel cx range,
      (consumeComplexSelectorList fuel cx initState
          (consumeWhitespaceL range)).2.1.failedParsing = true →
      parseSelector fuel cx range = []) ∧
    (∀ fuel cx range, parseSelector fuel cx range ≠ [] →
      parseSelector fuel cx range
          = (consumeComplexSelectorList fuel cx initState
              (consumeWhitespaceL range)).1 ∧
        (consumeComplexSelectorList fuel cx initState
            (consumeWhitespaceL range)).2.2 = [] ∧
        (consumeComplexSelectorList fuel cx initState
            (consumeWhitespaceL range)).2.1.failedParsing = false) := by
  refine ⟨fun fuel cx => parseSelector_nil fuel cx, by decide, ?_, ?_⟩
  · intro fuel cx range hfail
    by_contra hne
    have h3 := (parseSelector_ne_nil_spec fuel cx range hne).2.2
    rw [hfail] at h3
    simp at h3
  · exact fun fuel cx range hne => parseSelector_ne_nil_spec fuel cx range hne

/-- C2 : an empty surviving `:has()` argument list is a hard failure: the
post-loop logic of the forgiving relative list sets the sticky failure
flag on an empty list (outside compound pseudos and pseudo-element
restrictions), every forgiving relative parse ends in that logic, and
concretely `:has(#)` fails the whole parse with the flag set while the
identically malformed `:is(#)` succeeds with an invalid-but-harmless inner
list. -/
theorem C2_has_empty_forgiving_hard_failure :
    (∀ st range, st.insideCompoundPseudo = false →
      st.restrictingPseudoElement = PseudoType.unknown →
      relativePost st [] range
        = (none, {st with failedParsing := true}, range)) ∧
    (∀ fuel cx st range,
      consumeForgivingRelativeSelectorList (fuel + 1) cx st range
        = (let t := forgivingRelativeLoop fuel cx st range [];
           relativePost t.2.1 t.1 t.2.2)) ∧
    (parseSelector 12 cx0 [.colon, .function "has" [.delim '#']]).isEmpty
      = true ∧
    (consumeComplexSelectorList 12 cx0 initState
        [.colon, .function "has" [.delim '#']]).2.1.failedParsing = true ∧
    parseSelector 12 cx0 [.colon, .function "is" [.delim '#']]
      = [.mk isData (some none) none] := by
  refine ⟨?_, ?_, by decide, by decide, by rfl⟩
  · intro st range h1 h2
    simp [relativePost, h1, h2, forcePState_eq]
  · intro fuel cx st range
    rfl

/-- C3 : forgiving list members are parsed independently: the member loop
of `ConsumeForgivingComplexSelectorList` always returns with the sticky
failure flag exactly as it found it (the save/reset/restore around each
member), a member is kept only when it parsed without failure and consumed
its whole comma-delimited span and is dropped otherwise, and `:is(.a,)`
parses to the one-element list containing only `.a`. -/
theorem C3_forgiving_member_isolation :
    (∀ fuel cx st range acc,
      (forgivingComplexLoop fuel cx st range acc).2.1.failedParsing
        = st.failedParsing) ∧
    (∀ acc (s : Sel) failed rest,
      forgivingKeep acc none failed rest = acc ∧
      forgivingKeep acc (some s) true rest = acc ∧
      (rest ≠ [] → forgivingKeep acc (some s) failed rest = acc) ∧
      forgivingKeep acc (some s) false [] = acc ++ [s]) ∧
    parseSelector 12 cx0
        [.colon, .function "is" [.delim '.', .ident "a", .comma]]
      = [.mk isData (some (some [.mk aData none none])) none] := by
  refine ⟨?_, ?_, by rfl⟩
  · intro fuel
    induction fuel with
    | zero => intro cx st range acc; rfl
    | succ n ih =>
        intro cx st range acc
        rw [forgivingComplexLoop_succ]
        simp only [parserGo, toVec_vecOut, fold_complexSel,
          fold_forgComplexLoop, forcePState_eq]
        by_cases hr : range.isEmpty = true
        · simp [hr]
        · rcases hEa : consumeNestedArgument range with ⟨arg0, r1⟩
          rcases hEb : consumeComplexSelector n cx
              {st with failedParsing := false} (forceToks arg0)
            with ⟨s?, st1, argRest⟩
          by_cases hc : isCommaT (peekT r1) = true
          · simp [hr, hEa, hEb, hc, forcePState_eq, ih]
          · simp [hr, hEa, hEb, hc, forcePState_eq]
  · intro acc s failed rest
    refine ⟨rfl, by simp [forgivingKeep], ?_, rfl⟩
    intro hrest
    cases rest with
    | nil => exact absurd rfl hrest
    | cons a l => simp [forgivingKeep]

/-- C4 (amended) : after a restricting pseudo-element, subsequent simple
selectors go through the fixed adjacency legality table - `div::before:hover`
fails and `::part(x):hover` succeeds; after `::part()` user-action and the
custom-state pseudo-classes are legal, and after `::before` every
pseudo-class is rejected EXCEPT `::marker` (feature-gated) and the logical
combination pseudo-classes `:is()`/`:where()`/`:not()`/`:has()`, which the
table always accepts. -/
theorem C4_adjacency_after_pseudo_element :
    (parseSelector 10 cx0
        [.ident "div", .colon, .colon, .ident "before", .colon,
         .ident "hover"]).isEmpty = true ∧
    (parseSelector 10 cx0
        [.colon, .colon, .function "part" [.ident "x"], .colon,
         .ident "hover"]).length = 1 ∧
    (∀ cx d l h, d.matchType = MatchType.pseudoCls →
      (isUserActionPseudoCls d.pseudoType = true ∨
        d.pseudoType = PseudoType.state) →
      isSimpleSelectorValidAfterPseudoElement cx (.mk d l h)
        PseudoType.part = true) ∧
    (∀ cx d l h, d.matchType = MatchType.pseudoCls →
      d.pseudoType ≠ PseudoType.marker →
      d.pseudoType ≠ PseudoType.is' → d.pseudoType ≠ PseudoType.where' →
      d.pseudoType ≠ PseudoType.not' → d.pseudoType ≠ PseudoType.has' →
      isSimpleSelectorValidAfterPseudoElement cx (.mk d l h)
        PseudoType.before = false) := by
  refine ⟨by decide, by decide, ?_, ?_⟩
  · intro cx d l h hm hpt
    obtain ⟨mt, pt, g3, g4, g5, g6, g7, g8, g9, g10, g11, g12, g13, g14,
      g15⟩ := d
    cases hm
    cases pt <;>
      simp_all [isSimpleSelectorValidAfterPseudoElement, isAllowedAfterPart,
        isTreeAbidingPseudoElement, validAfterPseudoElementTail,
        isPseudoClsValidAfterPseudoElement, isUserActionPseudoCls,
        CSSParserSelector.data]
  · intro cx d l h hm h1 h2 h3 h4 h5
    obtain ⟨mt, pt, g3, g4, g5, g6, g7, g8, g9, g10, g11, g12, g13, g14,
      g15⟩ := d
    cases hm
    cases pt <;>
      simp_all [isSimpleSelectorValidAfterPseudoElement,
        validAfterPseudoElementTail, isPseudoClsValidAfterPseudoElement,
        isScrollbarPseudoCls, isUserActionPseudoCls,
        CSSParserSelector.data]

/-- C4 counterexample : the claim excepts only `::marker`, but the logical
combination pseudo-class `:is()` after `::before` parses successfully. -/
theorem C4_counterexample_is_after_before :
    (parseSelector 10 cx0
        [.ident "div", .colon, .colon, .ident "before", .colon,
         .function "is" []]).length = 1 := by decide

/-- C5 : a compound whose already-built prefix carries the
pseudo-element compound flag forbids any further compound: when the next
compound parses, `ConsumePartialComplexSelector` under set previous
compound flags returns failure; `ExtractCompoundFlags` marks every
pseudo-element except UA-sheet `::-webkit-*` custom elements; and
`div::before span` fails entirely. -/
theorem C5_pseudo_element_rightmost :
    (∀ fuel cx st comb sel range n st1 r1,
      consumeCompoundSelector fuel cx st range = (some n, st1, r1) →
      consumePartialComplexSelector (fuel + 1) cx st comb sel true range
        = (none, st1, r1)) ∧
    (∀ mode d, d.matchType = MatchType.pseudoElem →
      (mode = ParserMode.uaSheetMode →
        d.pseudoType ≠ PseudoType.webKitCustomElement) →
      extractCompoundFlags mode d = true) ∧
    (parseSelector 10 cx0
        [.ident "div", .colon, .colon, .ident "before", .whitespace,
         .ident "span"]).isEmpty = true := by
  refine ⟨?_, ?_, by decide⟩
  · intro fuel cx st comb sel range n st1 r1 hE
    rw [consumePartialComplexSelector_succ]
    simp only [parserGo, toSel_selOut, fold_compoundSel]
    simp [hE]
  · intro mode d h1 h2
    simp only [extractCompoundFlags, h1]
    split_ifs with hx hy
    · simp at hx
    · rw [Bool.and_eq_true, decide_eq_true_eq, decide_eq_true_eq] at hy
      exact absurd hy.2 (h2 hy.1)
    · rfl

/-- C6 : the An+B micro-grammar on the tokenizer's output: `odd` → (2,1),
`even` → (2,0), `3` → (0,3), `2n+1` (a `2n` dimension then a signed `+1`
number) → (2,1), `-n+3` (the ident `-n` then a signed `+3`) → (-1,3),
bare `n` → (1,0), and the malformed `foo` fails. -/
theorem C6_anpb_cases :
    consumeANPlusB [.ident "odd"] = (some (2, 1), []) ∧
    consumeANPlusB [.ident "even"] = (some (2, 0), []) ∧
    consumeANPlusB [.number true .noSign 3] = (some (0, 3), []) ∧
    consumeANPlusB [.dimension true .noSign 2 "n", .number true .plusSign 1]
      = (some (2, 1), []) ∧
    consumeANPlusB [.ident "-n", .number true .plusSign 3]
      = (some (-1, 3), []) ∧
    consumeANPlusB [.ident "n"] = (some (1, 0), []) ∧
    (consumeANPlusB [.ident "foo"]).1 = none := by
  refine ⟨by rfl, by rfl, by rfl, by rfl, by rfl, by rfl, by rfl⟩

/-- C7 : in the B constant of An+B, a minus-sign-negated integer whose
clamped magnitude is the minimum representable int saturates to the
maximum representable int instead of overflowing. -/
theorem C7_anpb_min_int_saturates (v : Int)
    (h : clampToInt v = intMinI) :
    (consumeANPlusB [.ident "n-", .number true .noSign v]).1
      = some (1, intMaxI) := by
  show (anpbFinish 1 .minusSign [CSSParserToken.number true .noSign v]).1
    = some (1, intMaxI)
  simp [anpbFinish, h]

/-- C7 witness : the saturation at the concrete minimum integer. -/
theorem C7_anpb_min_int_saturates_witness :
    (consumeANPlusB [.ident "n-",
        .number true .noSign (-2147483648)]).1 = some (1, intMaxI) :=
  C7_anpb_min_int_saturates (-2147483648) (by decide)

/-- C8 : namespace resolution: a null prefix resolves to the default
namespace, the empty prefix to the no-namespace URI, `*` to the wildcard,
and any other prefix through the stylesheet table; with `ns` bound to `U`,
`ns|div` parses to a type selector with namespace URI `U`, while the
unregistered `bogus|div` is a hard failure with the sticky flag set. -/
theorem C8_namespace_resolution :
    (∀ cx st, determineNamespace cx st Atom.nullAtom
      = defaultNamespace cx st) ∧
    (∀ cx st, determineNamespace cx st (.str "") = emptyAtom) ∧
    (∀ cx st, determineNamespace cx st (.str "*") = starAtom) ∧
    (∀ cx st s sh, strEq s "" = false → strEq s "*" = false →
      cx.styleSheet = some sh →
      determineNamespace cx st (.str s) = namespaceURIFromPfx sh s) ∧
    parseSelector 10 cxNs [.ident "ns", .delim '|', .ident "div"]
      = [.mk {matchType := .tag,
              tagQName := some ⟨.str "ns", .str "div", .str "U"⟩}
          none none] ∧
    (parseSelector 10 cxNs
        [.ident "bogus", .delim '|', .ident "div"]).isEmpty = true ∧
    (consumeComplexSelectorList 10 cxNs initState
        [.ident "bogus", .delim '|', .ident "div"]).2.1.failedParsing
      = true := by
  refine ⟨fun cx st => rfl, fun cx st => rfl, fun cx st => rfl, ?_,
    by rfl, by decide, by decide⟩
  intro cx st s sh h1 h2 h3
  simp [determineNamespace, h1, h2, h3]

/-- C9 : `:host()`, `:host-context()`, `:-webkit-any()` and `::cue()`
parse their argument as a compound selector list (a combinator inside any
member kills the pseudo), and `:host`/`:host-context` additionally require
exactly one selector in the list, so their comma-lists fail while the
`-webkit-any`/`cue` comma-lists succeed. -/
theorem C9_host_family_compound_lists :
    (∀ pt d (l : List Sel) blockRest stC r2, l.length ≠ 1 →
      (pt = PseudoType.host ∨ pt = PseudoType.hostContext) →
      hostFamilyFinish pt d (some l) blockRest stC r2 = (none, stC, r2)) ∧
    (parseSelector 12 cx0
        [.colon, .function "host" [.delim '.', .ident "a"]]).length = 1 ∧
    (parseSelector 12 cx0
        [.colon, .function "host"
          [.delim '.', .ident "a", .comma, .delim '.', .ident "b"]]).isEmpty
      = true ∧
    (parseSelector 12 cx0
        [.colon, .function "host-context"
          [.delim '.', .ident "a", .comma, .delim '.', .ident "b"]]).isEmpty
      = true ∧
    (parseSelector 12 cx0
        [.colon, .function "-webkit-any"
          [.delim '.', .ident "a", .comma, .delim '.', .ident "b"]]).length
      = 1 ∧
    (parseSelector 12 cx0
        [.colon, .colon, .function "cue"
          [.delim '.', .ident "a", .comma, .delim '.', .ident "b"]]).length
      = 1 ∧
    (parseSelector 12 cx0
        [.colon, .function "host"
          [.delim '.', .ident "a", .whitespace, .delim '.',
           .ident "b"]]).isEmpty = true ∧
    (parseSelector 12 cx0
        [.colon, .function "-webkit-any"
          [.delim '.', .ident "a", .whitespace, .delim '.',
           .ident "b"]]).isEmpty = true ∧
    (parseSelector 12 cx0
        [.colon, .colon, .function "cue"
          [.delim '.', .ident "a", .whitespace, .delim '.',
           .ident "b"]]).isEmpty = true ∧
    (parseSelector 12 cx0
        [.colon, .function "host"
          [.delim '.', .ident "a", .delim '>', .delim '.',
           .ident "b"]]).isEmpty = true := by
  refine ⟨?_, by decide, by decide, by decide, by decide, by decide,
    by decide, by decide, by decide, by decide⟩
  intro pt d l blockRest stC r2 hlen hpt
  simp only [hostFamilyFinish]
  by_cases hb : blockRest.isEmpty = true
  · simp only [hb, Bool.not_true, if_false, Bool.false_eq_true]
    rcases hpt with h | h <;> simp [h, hlen]
  · simp only [Bool.not_eq_true] at hb
    simp [hb]

/-- C10 (amended) : for every restricting pseudo-element EXCEPT
`::slotted` - whose row accepts only tree-abiding pseudo-elements and
therefore rejects every pseudo-class - the after-pseudo-element legality
check accepts the logical combination pseudo-classes
`:is()`/`:where()`/`:not()`/`:has()`, deferring their contents to the
nested parse under the preserved restriction. -/
theorem C10_logical_pseudos_after_pseudo_element (cx : PContext)
    (pe : PseudoType) (d : SelData) (l : Option (Option (List Sel)))
    (th : Option Sel) (hpe : pe ≠ PseudoType.slotted)
    (hm : d.matchType = MatchType.pseudoCls)
    (hpt : d.pseudoType = PseudoType.is' ∨
      d.pseudoType = PseudoType.where' ∨ d.pseudoType = PseudoType.not' ∨
      d.pseudoType = PseudoType.has') :
    isSimpleSelectorValidAfterPseudoElement cx (.mk d l th) pe = true := by
  obtain ⟨mt, pt, g3, g4, g5, g6, g7, g8, g9, g10, g11, g12, g13, g14,
    g15⟩ := d
  cases hm
  cases pe <;>
    first
    | exact absurd rfl hpe
    | (rcases hpt with h | h | h | h <;> cases h <;>
        simp [isSimpleSelectorValidAfterPseudoElement, isAllowedAfterPart,
          isTreeAbidingPseudoElement, validAfterPseudoElementTail,
          CSSParserSelector.data])

/-- C10 witness : `:is()` is accepted after `::before`. -/
theorem C10_logical_pseudos_witness :
    isSimpleSelectorValidAfterPseudoElement cx0
      (.mk isData none none) PseudoType.before = true :=
  C10_logical_pseudos_after_pseudo_element cx0 PseudoType.before isData
    none none (by decide) (by decide) (Or.inl (by decide))

/-- C10 counterexample : after `::slotted`, the legality check rejects the
logical pseudo-class `:is()` (the row returns
`IsTreeAbidingPseudoElement`), contradicting "for every restricting
pseudo-element value". -/
theorem C10_counterexample_slotted :
    isSimpleSelectorValidAfterPseudoElement cx0
      (.mk isData none none) PseudoType.slotted = false := by decide

end CSSParser
